import Mathlib

/-!
Verification of the letterboxd-graph pipeline: calendar-grid aggregation,
streak statistics, color-level mapping, SVG rendering, XML escaping, and
the fetch-layer retry / challenge-classification logic, embedded from the
JavaScript sources (src/stats.js, src/fetcher.js, src/exporter.js).

Dates: the code works with JavaScript `Date` objects at UTC day precision
(entries are created via `Date.UTC(year, month, day)`).  We model a date as
a civil triple `Ymd` together with its day index (days since 1970-01-01,
the epoch); `toISOString().split("T")[0]` keys are modelled by the day
index, which is an injective encoding of valid civil dates.
-/

namespace LetterboxdGraph

/-- A UTC calendar date at day precision (what a normalized JS `Date` holds). -/
structure Ymd where
  year : Int
  month : Int
  day : Int
deriving DecidableEq, Repr

/-- Gregorian leap-year rule, as JS `Date` implements it. -/
def isLeapYear (y : Int) : Bool :=
  y % 4 == 0 && (y % 100 != 0 || y % 400 == 0)

/-- Number of days in a month of a given year. -/
def daysInMonth (y m : Int) : Int :=
  if m = 1 then 31 else if m = 2 then (if isLeapYear y then 29 else 28)
  else if m = 3 then 31 else if m = 4 then 30 else if m = 5 then 31
  else if m = 6 then 30 else if m = 7 then 31 else if m = 8 then 31
  else if m = 9 then 30 else if m = 10 then 31 else if m = 11 then 30
  else 31

/-- Days in the year before the first day of month `m` (1-based). -/
def monthOffset (leap : Bool) (m : Int) : Int :=
  if m = 1 then 0 else if m = 2 then 31 else if m = 3 then (if leap then 60 else 59)
  else if m = 4 then (if leap then 91 else 90) else if m = 5 then (if leap then 121 else 120)
  else if m = 6 then (if leap then 152 else 151) else if m = 7 then (if leap then 182 else 181)
  else if m = 8 then (if leap then 213 else 212) else if m = 9 then (if leap then 244 else 243)
  else if m = 10 then (if leap then 274 else 273) else if m = 11 then (if leap then 305 else 304)
  else if leap then 335 else 334

/-- A normalized JS `Date` always carries a valid civil date. -/
def validYmd (d : Ymd) : Prop :=
  1 ≤ d.month ∧ d.month ≤ 12 ∧ 1 ≤ d.day ∧ d.day ≤ daysInMonth d.year d.month

instance (d : Ymd) : Decidable (validYmd d) := by
  unfold validYmd; infer_instance

/-- Day index (days since 1970-01-01) of January 1 of year `y`
(proleptic Gregorian; `/` on `Int` is Euclidean division, which is floor
division for the positive divisors used here). -/
def daysToJan1 (y : Int) : Int :=
  365 * (y - 1970) + ((y - 1) / 4 - (y - 1) / 100 + (y - 1) / 400)
    - (1969 / 4 - 1969 / 100 + 1969 / 400)

/-- Day index of a civil date (days since 1970-01-01), the day-precision
value of `Date.UTC(year, month-1, day)`. -/
def toDayIndex (d : Ymd) : Int :=
  daysToJan1 d.year + monthOffset (isLeapYear d.year) d.month + d.day - 1

/-- `getUTCDay()` of a day index: 0 = Sunday … 6 = Saturday
(1970-01-01 was a Thursday). -/
def weekdayOf (dayIndex : Int) : Int :=
  (dayIndex + 4) % 7

/-- Inverse of `toDayIndex`: civil date from a day index
(Hinnant's `civil_from_days`, used to model `getUTCFullYear` /
`getUTCMonth` / `getUTCDate` of a cell date). -/
def civilFromDays (z0 : Int) : Ymd :=
  let z := z0 + 719468
  let era := z / 146097
  let doe := z - era * 146097
  let yoe := (doe - doe / 1460 + doe / 36524 - doe / 146097) / 365
  let y := yoe + era * 400
  let doy := doe - (365 * yoe + yoe / 4 - yoe / 100)
  let mp := (5 * doy + 2) / 153
  let d := doy - (153 * mp + 2) / 5 + 1
  let m := mp + (if mp < 10 then 3 else (-9))
  { year := y + (if m ≤ 2 then 1 else 0), month := m, day := d }

/-- One diary entry (the `DiaryEntry` shape produced by the parser):
`rating` is the 0–10 class marker halved, so a multiple of 1/2. -/
structure Entry where
  date : Ymd
  title : String
  releaseYear : String
  rating : Option ℚ
  url : Option String
deriving DecidableEq, Repr

/-- Day index of an entry's date. -/
def Entry.dayIdx (e : Entry) : Int := toDayIndex e.date

/-! ## Sorting

JS `Array.prototype.sort` with a comparator is a stable sort; we model it
by a stable insertion sort (structural recursion, so that concrete runs
reduce in the kernel). -/

/-- Insert `x` into `l` before the first element `y` with `le x y`. -/
def insertLe (le : α → α → Bool) (x : α) : List α → List α
  | [] => [x]
  | y :: ys => if le x y then x :: y :: ys else y :: insertLe le x ys

/-- Stable sort by the boolean order `le`. -/
def stableSort (le : α → α → Bool) (l : List α) : List α :=
  l.foldr (insertLe le) []

/-- `[...new Set(l)]`: keep the first occurrence of each element,
in order (`seen` accumulates the elements already emitted). -/
def dedupFirst [BEq α] (seen : List α) : List α → List α
  | [] => []
  | x :: xs =>
    if seen.contains x then dedupFirst seen xs
    else x :: dedupFirst (x :: seen) xs

/-! ## src/stats.js -/

/-- The streak result of `calculateStreak`: `startDate` / `endDate` are the
ISO date keys, modelled by day indices. -/
structure Streak where
  length : Nat
  startDate : Option Int
  endDate : Option Int
deriving DecidableEq, Repr

/-- The sorted list of unique entry dates,
`[...new Set(entries.map(e => e.date.toISOString().split('T')[0]))].sort()`:
the JS `Set` keeps first occurrences; lexicographic order on ISO date
strings coincides with numeric order on day indices for 4-digit years. -/
def uniqueDates (entries : List Entry) : List Int :=
  stableSort (fun a b => a ≤ b) (dedupFirst [] (entries.map Entry.dayIdx))

/-- The accumulator loop of `calculateStreak` (stats.js lines 30-51):
state is `(currentStreak, maxStreak, maxStart, maxEnd, currentStart)` and
`prev` is `uniqueDates[i-1]`.  `diffDays` is exact for day-precision UTC
dates, so `Math.round` disappears. -/
def streakLoop : List Int → Int → Nat → Nat → Int → Int → Int → Nat × Int × Int
  | [], _, _, maxStreak, maxStart, maxEnd, _ => (maxStreak, maxStart, maxEnd)
  | curr :: rest, prev, currentStreak, maxStreak, maxStart, maxEnd, currentStart =>
    if curr - prev = 1 then
      let currentStreak := currentStreak + 1
      if maxStreak < currentStreak then
        streakLoop rest curr currentStreak currentStreak currentStart curr currentStart
      else
        streakLoop rest curr currentStreak maxStreak maxStart maxEnd currentStart
    else
      streakLoop rest curr 1 maxStreak maxStart maxEnd curr

/-- `calculateStreak` (stats.js lines 10-58). -/
def calculateStreak (entries : List Entry) : Streak :=
  if entries.isEmpty then
    { length := 0, startDate := none, endDate := none }
  else
    match uniqueDates entries with
    | [] => { length := 0, startDate := none, endDate := none }
    | d0 :: rest =>
      let r := streakLoop rest d0 1 1 d0 d0 d0
      { length := r.1, startDate := some r.2.1, endDate := some r.2.2 }

/-- `calculateDaysActive` (stats.js lines 65-73): the number of unique
entry dates. -/
def calculateDaysActive (entries : List Entry) : Nat :=
  (dedupFirst [] (entries.map Entry.dayIdx)).length

/-- The per-film record stored by `groupEntriesByDate` (stats.js 80-96). -/
structure FilmInfo where
  title : String
  year : String
  rating : Option ℚ
deriving DecidableEq, Repr

/-- `groupEntriesByDate(entries).get(dateKey)` for one date key: the map
groups entries by ISO date preserving entry order, and a missing key reads
back as the empty list (`|| []` at the call sites). -/
def filmsFor (entries : List Entry) (dayIndex : Int) : List FilmInfo :=
  (entries.filter (fun e => e.dayIdx == dayIndex)).map
    (fun e => { title := e.title, year := e.releaseYear, rating := e.rating })

/-! ## src/fetcher.js — `generateSvg` aggregation (lines 294-417)

The grid, its alignment and the color mapping, factored out of
`generateSvg` exactly as the source computes them.  `weekStart` and `mode`
are the raw option strings (`"sunday"`/`"monday"`, `"count"`/`"rating"`),
compared the way the source compares them. -/

/-- The year filter at the top of `generateSvg` (line 310):
`entry.date.getFullYear() === year` (the action always runs with a UTC
clock, so local and UTC year coincide). -/
def svgYearFilter (entries : List Entry) (year : Int) : List Entry :=
  entries.filter (fun e => e.date.year == year)

/-- `sort((a, b) => a.date.getTime() - b.date.getTime())`: stable ascending
sort by date. -/
def sortEntriesByDate (l : List Entry) : List Entry :=
  stableSort (fun a b => decide (a.dayIdx ≤ b.dayIdx)) l

/-- The filtered, sorted entry list `sortedEntries` of `generateSvg`. -/
def sortedEntriesFor (entries : List Entry) (year : Int) : List Entry :=
  sortEntriesByDate (svgYearFilter entries year)

/-- The aligned grid start (lines 330-337): January 1 of the display year,
shifted back by `dayShift` places to the prior configured week-start day
(the source only calls `setUTCDate` when `dayShift > 0`, but subtracting 0
is the identity). -/
def alignedStartIdx (year : Int) (weekStart : String) : Int :=
  let startDate := daysToJan1 year
  let startDay := weekdayOf startDate
  let dayShift := if weekStart == "monday" then (startDay + 6) % 7 else startDay
  startDate - dayShift

/-- December 31 of the display year, `Date.UTC(displayYear, 11, 31)`. -/
def yearEndIdx (year : Int) : Int :=
  toDayIndex { year := year, month := 12, day := 31 }

/-- `totalDays` (line 339): the `Math.ceil` of the millisecond quotient is
exact for day-precision UTC dates. -/
def totalDaysOf (year : Int) (weekStart : String) : Int :=
  yearEndIdx year - alignedStartIdx year weekStart + 1

/-- `totalWeeks = Math.ceil(totalDays / 7)` (line 340); for the positive
day counts produced above this is floor `(totalDays + 6) / 7`. -/
def totalWeeksOf (year : Int) (weekStart : String) : Int :=
  (totalDaysOf year weekStart + 6) / 7

/-- The remapped weekday row of an entry (line 349): index 0 is the
configured week-start day. -/
def rowIndexOf (weekStart : String) (dayIndex : Int) : Int :=
  if weekStart == "monday" then (weekdayOf dayIndex + 6) % 7 else weekdayOf dayIndex

/-- One step of the grid-filling loop (lines 346-355): place an entry at
`grid[dayIndex][weekIndex]` when the week index is inside the grid, and
track `maxCount`.  The grid is modelled as a total function from
`(row, week)` to a count. -/
def gridStep (start totalWeeks : Int) (weekStart : String)
    (acc : (Nat × Nat → Nat) × Nat) (e : Entry) : (Nat × Nat → Nat) × Nat :=
  let daysSinceStart := e.dayIdx - start
  let weekIndex := daysSinceStart / 7
  let dayIndex := rowIndexOf weekStart e.dayIdx
  if 0 ≤ weekIndex ∧ weekIndex < totalWeeks then
    let key := (dayIndex.toNat, weekIndex.toNat)
    let c := acc.1 key + 1
    (Function.update acc.1 key c, max acc.2 c)
  else acc

/-- The activity grid and `maxCount` of `generateSvg` (lines 342-355),
built from the year-filtered, date-sorted entries. -/
def gridOf (entries : List Entry) (year : Int) (weekStart : String) :
    (Nat × Nat → Nat) × Nat :=
  (sortedEntriesFor entries year).foldl
    (gridStep (alignedStartIdx year weekStart) (totalWeeksOf year weekStart) weekStart)
    (fun _ => 0, 0)

/-- Sum of all cell counts of a grid with `tw` week columns. -/
def sumGrid (g : Nat × Nat → Nat) (tw : Nat) : Nat :=
  ∑ p ∈ Finset.range 7 ×ˢ Finset.range tw, g p

/-- The average rating of a cell as `getColor` computes it (lines 403-404):
`films.reduce((sum, f) => sum + (f.rating || 0), 0) / count` — an absent
rating contributes 0 and the divisor is the cell count. -/
def cellAvgRating (films : List FilmInfo) (count : Nat) : ℚ :=
  (films.foldl (fun s f => s + f.rating.getD 0) 0) / count

/-- `getColor(count, films)` (lines 399-417), with the enclosing
`mode` / `maxCount` / theme `colors` closure state as parameters.
JS floats are modelled by ℚ: cell averages of half-point ratings and the
quotient `count / maxCount` stay far enough from the decision boundaries
that IEEE rounding never flips a comparison. -/
def getColor (mode : String) (maxCount : Nat) (colors : List String)
    (count : Nat) (films : List FilmInfo) : String :=
  if count == 0 then colors.getD 0 ""
  else if mode == "rating" && !films.isEmpty then
    let avgRating := cellAvgRating films count
    if avgRating < 5/2 then colors.getD 1 ""
    else if avgRating < 7/2 then colors.getD 2 ""
    else if avgRating < 9/2 then colors.getD 3 ""
    else colors.getD 4 ""
  else if maxCount == 0 then colors.getD 0 ""
  else
    let level := ⌈((count : ℚ) / maxCount) * 4⌉
    colors.getD (min level 4).toNat ""

/-- The count-mode level of the structured JSON export
(`buildJsonExport`, stats.js lines 257-269): note the special case
`maxCount === 1 → level 1`. -/
def jsonCellLevel (maxCount count : Nat) : Nat :=
  if count ≤ 0 || maxCount ≤ 0 then 0
  else if maxCount == 1 then 1
  else (max 1 (min 4 ⌈((count : ℚ) / maxCount) * 4⌉)).toNat

/-! ## src/stats.js — `buildJsonExport` (lines 122-307) -/

/-- Left-pad the decimal representation with zeros (ISO date fields). -/
def zeroPad (len : Nat) (n : Int) : String :=
  let s := toString n
  String.mk (List.replicate (len - s.length) '0') ++ s

/-- The date part of `toISOString()` for a day index. -/
def isoDate (dayIndex : Int) : String :=
  let c := civilFromDays dayIndex
  zeroPad 4 c.year ++ "-" ++ zeroPad 2 c.month ++ "-" ++ zeroPad 2 c.day

/-- `Math.round(x)`: round half toward positive infinity. -/
def jsRound (q : ℚ) : Int := ⌊q + 1/2⌋

/-- `Math.round(x * 10) / 10` — the one-decimal rounding applied to
average ratings. -/
def round10 (q : ℚ) : ℚ := (jsRound (q * 10) : ℚ) / 10

/-- JS `value || null` on an optional string (empty strings are falsy). -/
def jsUrlOrNull (u : Option String) : Option String :=
  match u with
  | some s => if s == "" then none else some s
  | none => none

/-- The per-film payload of an export cell. -/
structure JsonFilm where
  title : String
  year : String
  rating : Option ℚ
  url : Option String
deriving DecidableEq, Repr

/-- One populated day in the `cells` list (date keys as day indices). -/
structure JsonDayCell where
  date : Int
  count : Nat
  ratingAvg : Option ℚ
  films : List JsonFilm
  url : String
deriving DecidableEq, Repr

/-- One day of the `calendar` list. -/
structure JsonCell where
  date : Int
  week : Nat
  weekday : Int
  count : Nat
  ratingAvg : Option ℚ
  films : List JsonFilm
  level : Nat
  inRange : Bool
  url : String
deriving DecidableEq, Repr

/-- A month-label anchor. -/
structure MonthLabel where
  month : String
  week : Nat
deriving DecidableEq, Repr

/-- One entry of the `recent` list. -/
structure JsonRecent where
  date : Int
  title : String
  year : String
  rating : Option ℚ
  url : Option String
deriving DecidableEq, Repr

/-- Options of `buildJsonExport` with the source's defaults. -/
structure ExportOptions where
  username : String := ""
  year : Option Int := none
  years : List Int := []
  weekStart : String := "sunday"
  recentLimit : Nat := 10
deriving Repr

/-- The JSON export payload.  The `generatedAt` wall-clock timestamp is
not modelled (no claim concerns it); `meta` and `stats` are flattened. -/
structure JsonExport where
  user : String
  year : Option Int
  years : List Int
  metaWeekStart : String
  metaMinYear : Int
  metaMaxYear : Int
  metaStartDate : Int
  metaEndDate : Int
  metaAlignedStart : Int
  metaWeeks : Nat
  metaMaxCount : Nat
  statsFilms : Nat
  statsDaysActive : Nat
  statsStreak : Nat
  monthLabels : List MonthLabel
  calendar : List JsonCell
  cells : List JsonDayCell
  recent : List JsonRecent
deriving Repr

/-- Month display names. -/
def monthNames : List String :=
  ["Jan", "Feb", "Mar", "Apr", "May", "Jun",
   "Jul", "Aug", "Sep", "Oct", "Nov", "Dec"]

/-- The per-day diary URL
`https://letterboxd.com/<user>/films/diary/for/<yyyy>/<mm>/<dd>/`
(the source takes the zero-padded fields from the ISO date string). -/
def diaryUrlFor (username : String) (dayIndex : Int) : String :=
  let c := civilFromDays dayIndex
  "https://letterboxd.com/" ++ username ++ "/films/diary/for/" ++
    zeroPad 4 c.year ++ "/" ++ zeroPad 2 c.month ++ "/" ++ zeroPad 2 c.day ++ "/"

/-- `ratingAvg` of a day: mean of the non-null ratings rounded to one
decimal, or null when no film of the day is rated (lines 145-148). -/
def ratingAvgOf (dayEntries : List Entry) : Option ℚ :=
  let rated := dayEntries.filter (fun item => item.rating ≠ none)
  if rated.isEmpty then none
  else some (round10 ((rated.foldl (fun s item => s + item.rating.getD 0) 0) / rated.length))

/-- `selectedYears` (lines 167-189): explicit `years` win (deduplicated,
sorted descending), then a single integer `year`, then the entry years,
then the current year.  Callers pass integer years, on which the source's
`parseInt`/`isInteger` normalization is the identity.  The result is never
empty. -/
def selectedYearsOf (years : List Int) (year : Option Int)
    (sortedEntries : List Entry) (nowYear : Int) : List Int :=
  if !years.isEmpty then
    stableSort (fun a b => decide (b ≤ a)) (dedupFirst [] years)
  else
    match year with
    | some y => [y]
    | none =>
      let yearsFromEntries :=
        stableSort (fun a b => decide (b ≤ a))
          (dedupFirst [] (sortedEntries.map (fun e => e.date.year)))
      if !yearsFromEntries.isEmpty then yearsFromEntries else [nowYear]

/-- `Math.min` over a nonempty list (`selectedYears` is never empty). -/
def listMin : List Int → Int
  | [] => 0
  | x :: xs => xs.foldl min x

/-- `Math.max` over a nonempty list. -/
def listMax : List Int → Int
  | [] => 0
  | x :: xs => xs.foldl max x

/-- The film payload of one day's entries (repeated verbatim in the
source for `cells` and `calendar`). -/
def jsonFilmsOf (dayEntries : List Entry) : List JsonFilm :=
  dayEntries.map (fun item =>
    { title := item.title, year := item.releaseYear, rating := item.rating
      url := jsUrlOrNull item.url })

/-- The `calendar` array before the level pass (stats.js lines 207-255,
`level` still 0). -/
def jsonCalendarBase (username normalizedWeekStart : String)
    (sortedEntries : List Entry) (alignedStart rangeStart rangeEnd : Int) :
    List JsonCell :=
  (List.range (rangeEnd - alignedStart + 1).toNat).map (fun (dayOffset : Nat) =>
    let d := alignedStart + (dayOffset : Int)
    let dayEntries := sortedEntries.filter (fun e => e.dayIdx == d)
    let isPadding := decide (d < rangeStart) || decide (d > rangeEnd)
    ({ date := d
       week := dayOffset / 7
       weekday :=
         if normalizedWeekStart == "monday" then (weekdayOf d + 6) % 7 else weekdayOf d
       count := dayEntries.length
       ratingAvg := ratingAvgOf dayEntries
       films := jsonFilmsOf dayEntries
       level := 0
       inRange := !isPadding
       url := diaryUrlFor username d } : JsonCell))

/-- The normalized week start of the export,
`weekStart === 'monday' ? 'monday' : 'sunday'`. -/
def exportWeekStart (options : ExportOptions) : String :=
  if options.weekStart == "monday" then "monday" else "sunday"

/-- The `selectedYears` of one export run. -/
def exportSelectedYears (entries : List Entry) (options : ExportOptions)
    (nowYear : Int) : List Int :=
  selectedYearsOf options.years options.year (sortEntriesByDate entries) nowYear

/-- `rangeStart = Date.UTC(minYear, 0, 1)` (stats.js line 193). -/
def exportRangeStart (entries : List Entry) (options : ExportOptions) (nowYear : Int) : Int :=
  daysToJan1 (listMin (exportSelectedYears entries options nowYear))

/-- `rangeEnd = Date.UTC(maxYear, 11, 31)` (line 194). -/
def exportRangeEnd (entries : List Entry) (options : ExportOptions) (nowYear : Int) : Int :=
  toDayIndex { year := listMax (exportSelectedYears entries options nowYear)
               month := 12, day := 31 }

/-- `alignedStart = rangeStart - rangeStartWeekday` (lines 195-200). -/
def exportAlignedStart (entries : List Entry) (options : ExportOptions) (nowYear : Int) : Int :=
  let rangeStart := exportRangeStart entries options nowYear
  let rangeStartWeekday :=
    if exportWeekStart options == "monday" then (weekdayOf rangeStart + 6) % 7
    else weekdayOf rangeStart
  rangeStart - rangeStartWeekday

/-- `buildJsonExport(entries, options)` (stats.js lines 122-307).
`nowYear` models `new Date().getUTCFullYear()`, used only in the
`selectedYears` fallback when no year is given and no entry exists. -/
def buildJsonExport (entries : List Entry) (options : ExportOptions)
    (nowYear : Int) : JsonExport :=
  let username := options.username
  let sortedEntries := sortEntriesByDate entries
  let normalizedWeekStart := exportWeekStart options
  let dayEntriesAt := fun (d : Int) => sortedEntries.filter (fun e => e.dayIdx == d)
  let cells := (dedupFirst [] (sortedEntries.map Entry.dayIdx)).map (fun d =>
    let dayEntries := dayEntriesAt d
    ({ date := d
       count := dayEntries.length
       ratingAvg := ratingAvgOf dayEntries
       films := jsonFilmsOf dayEntries
       url := diaryUrlFor username d } : JsonDayCell))
  let selectedYears := exportSelectedYears entries options nowYear
  let minYear := listMin selectedYears
  let maxYear := listMax selectedYears
  let rangeStart := exportRangeStart entries options nowYear
  let rangeEnd := exportRangeEnd entries options nowYear
  let alignedStart := exportAlignedStart entries options nowYear
  let totalDays := rangeEnd - alignedStart + 1
  let baseCalendar :=
    jsonCalendarBase username normalizedWeekStart sortedEntries alignedStart rangeStart rangeEnd
  let maxCount := baseCalendar.foldl (fun m c => max m c.count) 0
  let calendar := baseCalendar.map (fun c => { c with level := jsonCellLevel maxCount c.count })
  let monthLabels := (List.range totalDays.toNat).filterMap (fun (dayOffset : Nat) =>
    let d := alignedStart + (dayOffset : Int)
    let isPadding := decide (d < rangeStart) || decide (d > rangeEnd)
    if !isPadding && (civilFromDays d).day == 1 then
      some ({ month := monthNames.getD ((civilFromDays d).month - 1).toNat ""
              week := dayOffset / 7 } : MonthLabel)
    else none)
  let recent := ((stableSort (fun a b => decide (b.dayIdx ≤ a.dayIdx)) sortedEntries).take
      options.recentLimit).map (fun e =>
    ({ date := e.dayIdx, title := e.title, year := e.releaseYear
       rating := e.rating, url := jsUrlOrNull e.url } : JsonRecent))
  { user := username
    year := options.year
    years := selectedYears
    metaWeekStart := normalizedWeekStart
    metaMinYear := minYear
    metaMaxYear := maxYear
    metaStartDate := rangeStart
    metaEndDate := rangeEnd
    metaAlignedStart := alignedStart
    metaWeeks := (calendar.length + 6) / 7
    metaMaxCount := maxCount
    statsFilms := sortedEntries.length
    statsDaysActive := calculateDaysActive sortedEntries
    statsStreak := (calculateStreak sortedEntries).length
    monthLabels := monthLabels
    calendar := calendar
    cells := cells
    recent := recent }

/-! ## src/exporter.js — challenge classification, retry delay, pagination -/

/-- Substring test on character lists. -/
def containsSub (hay pat : List Char) : Bool :=
  match hay with
  | [] => pat.isEmpty
  | _ :: t => pat.isPrefixOf hay || containsSub t pat

/-- Case-insensitive regex-literal test `/pat/i.test(html)`: all the
markers below are plain strings, so the test is a case-folded substring
search. -/
def testI (html pat : String) : Bool :=
  containsSub (html.toList.map Char.toLower) (pat.toList.map Char.toLower)

/-- `CLOUDFLARE_STRONG_MARKERS` (exporter.js lines 79-84); the escaped
slash of `cdn-cgi\/challenge-platform` is a literal slash. -/
def strongMarkers : List String :=
  ["cloudflare ray id", "cf_chl", "challenge-platform", "cdn-cgi/challenge-platform"]

/-- `CLOUDFLARE_WEAK_MARKERS` (lines 86-90). -/
def weakMarkers : List String :=
  ["just a moment", "checking your browser", "attention required"]

/-- The alternatives of `/(verify|security check|browser check|challenge)/i`. -/
def verificationHints : List String :=
  ["verify", "security check", "browser check", "challenge"]

/-- `isCloudflareChallengePage(html)` (exporter.js lines 92-103). -/
def isCloudflareChallengePage (html : String) : Bool :=
  if html == "" then false
  else if strongMarkers.any (fun pattern => testI html pattern) then true
  else
    let hasWeakMarker := weakMarkers.any (fun pattern => testI html pattern)
    let hasCloudflareText := testI html "cloudflare"
    let hasVerificationHint := verificationHints.any (fun pattern => testI html pattern)
    hasWeakMarker && hasCloudflareText && hasVerificationHint

/-- `retryDelayMs(attempt, isCloudflareRetry)` (exporter.js lines 124-128);
`jitterSeconds` models the `Math.random()` draw, a value in `[0, 1)`. -/
def retryDelayMs (attempt : Int) (isCloudflareRetry : Bool) (jitterSeconds : ℚ) : Int :=
  let baseSeconds : ℚ := if isCloudflareRetry then 3 else 2
  jsRound ((baseSeconds * attempt + jitterSeconds) * 1000)

/-- Outcome of one logical page fetch (`fetchPageWithPuppeteer` after its
internal retries): either page content parsed into entries plus the
next-page flag, or a raised error, which is a `CloudflareChallengeError`
when the flag is true. -/
inductive PageResult where
  | ok (entries : List Entry) (hasMore : Bool)
  | err (isCloudflare : Bool)
deriving DecidableEq, Repr

/-- The pagination loop of `fetchLetterboxdData` (exporter.js lines
326-372), over an oracle giving each page's outcome.  `fuel` bounds the
number of iterations (the JS loop runs while pages keep coming);
`Except.error cf` models the function raising, `Except.ok` a normal
return. -/
def fetchPagesLoop (oracle : Nat → PageResult) :
    Nat → Nat → List Entry → Except Bool (List Entry)
  | 0, _, allEntries => .ok allEntries
  | fuel + 1, page, allEntries =>
    match oracle page with
    | .err isCloudflare =>
      if isCloudflare || page == 1 then .error isCloudflare
      else .ok allEntries
    | .ok entries hasMore =>
      if entries.isEmpty then .ok allEntries
      else if !hasMore then .ok (allEntries ++ entries)
      else fetchPagesLoop oracle fuel (page + 1) (allEntries ++ entries)

/-- `fetchLetterboxdData(username, year)` as a function of the page
oracle: start at page 1 with no entries gathered. -/
def fetchLetterboxdData (oracle : Nat → PageResult) (fuel : Nat) :
    Except Bool (List Entry) :=
  fetchPagesLoop oracle fuel 1 []

/-! ## src/fetcher.js — `escapeXml` (lines 278-289) -/

/-- The replacement for one character under
`replace(/[<>&'"]/g, ...)`: special characters become entities, all
others stay. -/
def escChar (c : Char) : String :=
  if c = '<' then "&lt;"
  else if c = '>' then "&gt;"
  else if c = '&' then "&amp;"
  else if c = Char.ofNat 39 then "&apos;"
  else if c = Char.ofNat 34 then "&quot;"
  else String.singleton c

/-- `escapeXml(unsafe)`: `undefined`/`null` yield `""`, otherwise each
special character is replaced by its entity. -/
def escapeXml (input : Option String) : String :=
  match input with
  | none => ""
  | some s => String.join (s.toList.map escChar)

/-! ## src/fetcher.js — `generateSvg` rendering (lines 294-667)

The full SVG text, built exactly as the source's template literals
concatenate it.  Literal apostrophes and braces appear as `\x27`,
`\x7b`, `\x7d`. -/

/-- Options of `generateSvg` with the source's defaults; `year = none`
means the caller omitted it, in which case the source falls back to the
wall clock (`new Date().getFullYear()`), passed separately as `nowYear`.
`displayName = none` likewise defaults to `username`. -/
structure SvgOptions where
  theme : String := "dark"
  year : Option Int := none
  weekStart : String := "sunday"
  username : String := "letterboxd"
  profileImage : Option String := none
  displayName : Option String := none
  usernameGradient : Bool := true
  logoBase64 : Option String := none
  followers : Int := 0
  following : Int := 0
  mode : String := "count"
deriving Repr

/-- One theme palette. -/
structure Theme where
  bg : String
  cardBorder : String
  text : String
  textMuted : String
  tooltipBg : String
  tooltipBorder : String
  tooltipText : String
  colors : List String
deriving Repr

/-- The dark GitHub-style palette. -/
def darkTheme : Theme :=
  { bg := "#0d1117", cardBorder := "#21262d", text := "#e6edf3"
    textMuted := "#7d8590", tooltipBg := "#161b22", tooltipBorder := "#30363d"
    tooltipText := "#f0f6fc"
    colors := ["#161b22", "#0e4429", "#006d32", "#26a641", "#39d353"] }

/-- The light palette. -/
def lightTheme : Theme :=
  { bg := "#ffffff", cardBorder := "#d1d9e0", text := "#1f2328"
    textMuted := "#656d76", tooltipBg := "#ffffff", tooltipBorder := "#d1d9e0"
    tooltipText := "#1f2328"
    colors := ["#ebedf0", "#9be9a8", "#40c463", "#30a14e", "#216e39"] }

/-- `themes[theme] || themes.dark`. -/
def themeFor (theme : String) : Theme :=
  if theme == "light" then lightTheme else if theme == "dark" then darkTheme
  else darkTheme

/-- `Math.max` over a nonempty list of naturals. -/
def listMaxNat : List Nat → Nat
  | [] => 0
  | x :: xs => xs.foldl max x

/-- How JS prints a half-point rating number (`3.5` or `3`). -/
def ratingDisplay (q : ℚ) : String :=
  if q.den == 1 then toString q.num else toString (q.num / 2) ++ ".5"

/-- JS truthiness of a rating value (`film.rating ? … : ""`): absent and
zero ratings are both falsy. -/
def jsTruthyRating : Option ℚ → Bool
  | some q => q != 0
  | none => false

/-- A streak endpoint interpolated into a template literal. -/
def isoOrNull : Option Int → String
  | some d => isoDate d
  | none => "null"

/-- The tooltip line of one film,
`• ${film.title} (${film.year})${ratingStr}`. -/
def filmLine (f : FilmInfo) : String :=
  "• " ++ f.title ++ " (" ++ f.year ++ ")" ++
    (if jsTruthyRating f.rating then " - " ++ ratingDisplay (f.rating.getD 0) ++ "★" else "")

/-- Sunday-first day names used for tooltip titles. -/
def dayNamesSunday : List String := ["Sun", "Mon", "Tue", "Wed", "Thu", "Fri", "Sat"]

/-- The weekly-distribution bars of the days-active tooltip
(lines 525-534). -/
def weeklyBars (weekStart : String) (weeklyDistribution : List Nat)
    (maxWeeklyCount : Nat) (t : Theme) : String :=
  let letters := if weekStart == "monday" then ["M","T","W","T","F","S","S"]
                 else ["S","M","T","W","T","F","S"]
  String.join (letters.enum.map (fun p =>
    let i := p.1
    let day := p.2
    let dayIndex := if weekStart == "monday" then (i + 1) % 7 else i
    let count := weeklyDistribution.getD dayIndex 0
    let barHeight : Int :=
      if 0 < maxWeeklyCount then jsRound (((count : ℚ) / maxWeeklyCount) * 45) else 0
    let x : Int := 20 + i * 24
    "\n        <text x=\"" ++ toString (x + 7) ++ "\" y=\"" ++ toString (80 - barHeight - 3) ++
      "\" font-size=\"9\" fill=\"" ++ t.tooltipText ++ "\" text-anchor=\"middle\">" ++
      toString count ++ "</text>\n        <rect x=\"" ++ toString x ++ "\" y=\"" ++
      toString (80 - barHeight) ++ "\" width=\"14\" height=\"" ++ toString barHeight ++
      "\" rx=\"2\" fill=\"" ++ t.colors.getD 3 "" ++ "\"/>\n        <text x=\"" ++
      toString (x + 7) ++ "\" y=\"100\" font-size=\"9\" fill=\"" ++ t.text ++
      "\" text-anchor=\"middle\">" ++ day ++ "</text>"))

/-- The CSS block inside `<defs>` (lines 435-474). -/
def svgStyleBlock : String :=
  "    <style type=\"text/css\">\n      <![CDATA[\n      .tooltip-group \x7b\n        opacity: 0;\n        transition: opacity 0.2s ease;\n        pointer-events: none;\n      \x7d\n      .cell-group:hover .tooltip-group \x7b\n        opacity: 1;\n      \x7d\n      .cell-group:hover .cell \x7b\n        filter: brightness(1.3);\n      \x7d\n      .cell \x7b\n        transition: filter 0.2s ease;\n      \x7d\n      .streak-tooltip \x7b\n        opacity: 0;\n        transition: opacity 0.2s ease;\n        pointer-events: none;\n      \x7d\n      .streak-group:hover .streak-tooltip \x7b\n        opacity: 1;\n      \x7d\n      .streak-group:hover \x7b\n        cursor: pointer;\n      \x7d\n      .days-active-tooltip \x7b\n        opacity: 0;\n        transition: opacity 0.2s ease;\n        pointer-events: none;\n      \x7d\n      .days-active-group:hover .days-active-tooltip \x7b\n        opacity: 1;\n      \x7d\n      .days-active-group:hover \x7b\n        cursor: pointer;\n      \x7d\n      ]]>\n    </style>\n"

/-- One grid cell (lines 591-660): empty for cells outside the display
year, otherwise the linked rectangle with its tooltip. -/
def cellSvg (username : String) (startDate svgWidth : Int) (mode : String)
    (maxCount : Nat) (t : Theme) (sortedEntries : List Entry) (displayYear : Int)
    (day week : Nat) : String :=
  let cellDate : Int := startDate + week * 7 + day
  let filmsForDay := filmsFor sortedEntries cellDate
  let count := filmsForDay.length
  let color := getColor mode maxCount t.colors count filmsForDay
  let x : Int := week * (14 + 3)
  let y : Int := day * (14 + 3)
  let isOutsideYear :=
    cellDate < daysToJan1 displayYear ||
      cellDate > toDayIndex { year := displayYear, month := 12, day := 31 }
  if isOutsideYear then ""
  else
    let c := civilFromDays cellDate
    let diaryUrl := diaryUrlFor username cellDate
    let dayName := dayNamesSunday.getD (weekdayOf cellDate).toNat ""
    let monthName := monthNames.getD (c.month - 1).toNat ""
    let tooltipTitle := dayName ++ ", " ++ toString c.day ++ ". " ++ monthName ++ " " ++
      toString c.year ++ ": " ++ toString count ++ " movie" ++
      (if count != 1 then "s" else "") ++ " watched"
    let lineHeight : Int := 18
    let tooltipHeight : Int := 38 + filmsForDay.length * lineHeight
    let tooltipWidth : Int :=
      max 240 (listMaxNat ((tooltipTitle :: filmsForDay.map filmLine).map
        (fun s => s.length * 7)) : Int)
    let tooltipX := min x (svgWidth - 51 - tooltipWidth - 10)
    "\n    <g class=\"cell-group\">\n      <a href=\"" ++ diaryUrl ++
    "\" target=\"_blank\">\n        <rect class=\"cell\"\n          x=\"" ++ toString x ++
    "\"\n          y=\"" ++ toString y ++
    "\"\n          width=\"14\"\n          height=\"14\"\n          rx=\"2\"\n          fill=\"" ++
    color ++ "\"\n        />\n        <g class=\"tooltip-group\" transform=\"translate(" ++
    toString tooltipX ++ ", " ++ toString (y - tooltipHeight - 8) ++
    ")\">\n          <rect x=\"0\" y=\"0\" width=\"" ++ toString tooltipWidth ++
    "\" height=\"" ++ toString tooltipHeight ++ "\" rx=\"6\" fill=\"" ++ t.tooltipBg ++
    "\" stroke=\"" ++ t.tooltipBorder ++
    "\" stroke-width=\"1\"/>\n          <text font-family=\"\x27Segoe UI\x27, Arial, sans-serif\" font-size=\"12\" fill=\"" ++
    t.tooltipText ++ "\">\n            <tspan x=\"10\" dy=\"22\" font-weight=\"600\">" ++
    escapeXml (some tooltipTitle) ++ "</tspan>" ++
    String.join (filmsForDay.map (fun film =>
      "\n            <tspan x=\"10\" dy=\"" ++ toString lineHeight ++ "\">" ++
        escapeXml (some (filmLine film)) ++ "</tspan>")) ++
    "\n          </text>\n        </g>\n      </a>\n    </g>"

/-- `generateSvg(entries, options)` (fetcher.js lines 294-667).
`nowYear` models `new Date().getFullYear()`, consumed only by the `year`
option default. -/
def generateSvg (entries : List Entry) (options : SvgOptions) (nowYear : Int) : String :=
  let year := options.year.getD nowYear
  let weekStart := options.weekStart
  let username := options.username
  let displayName := options.displayName.getD username
  let mode := options.mode
  let sortedEntries := sortedEntriesFor entries year
  let streak := calculateStreak sortedEntries
  let daysActive := calculateDaysActive sortedEntries
  let totalFilms := sortedEntries.length
  let weeklyDistribution := (List.range 7).map (fun d =>
    sortedEntries.countP (fun e => weekdayOf e.dayIdx == (d : Int)))
  let maxWeeklyCount := listMaxNat weeklyDistribution
  let displayYear := year
  let startDate := alignedStartIdx displayYear weekStart
  let totalWeeks := totalWeeksOf displayYear weekStart
  let gm := gridOf entries displayYear weekStart
  let maxCount := gm.2
  let gridWidth := totalWeeks * (14 + 3)
  let svgWidth := max 1000 (gridWidth + 100)
  let days := if weekStart == "monday" then ["Mon", "Tue", "Wed", "Thu", "Fri", "Sat", "Sun"]
              else dayNamesSunday
  let t := themeFor options.theme
  let profileLink := "https://letterboxd.com/" ++ username ++ "/"
  let header :=
    "<svg width=\"" ++ toString svgWidth ++ "\" height=\"290\" viewBox=\"0 0 " ++
    toString svgWidth ++
    " 290\" fill=\"none\" xmlns=\"http://www.w3.org/2000/svg\">\n  <defs>\n    <filter id=\"shadow\" x=\"-20%\" y=\"-20%\" width=\"140%\" height=\"140%\">\n      <feDropShadow dx=\"0\" dy=\"2\" stdDeviation=\"4\" flood-color=\"#000000\" flood-opacity=\"0.1\"/>\n    </filter>\n    <clipPath id=\"profileClip\">\n      <circle cx=\"40\" cy=\"40\" r=\"40\"/>\n    </clipPath>\n    <linearGradient id=\"usernameGradient\" x1=\"0%\" y1=\"0%\" x2=\"100%\" y2=\"0%\">\n      <stop offset=\"0%\" stop-color=\"#ff8001\"/>\n      <stop offset=\"25%\" stop-color=\"#b3c02e\"/>\n      <stop offset=\"50%\" stop-color=\"#00e054\"/>\n      <stop offset=\"75%\" stop-color=\"#1fc5a4\"/>\n      <stop offset=\"100%\" stop-color=\"#3fbcf4\"/>\n    </linearGradient>\n" ++
    svgStyleBlock ++
    "  </defs>\n  \n  <!-- Main Card -->\n  <rect width=\"100%\" height=\"100%\" rx=\"12\" fill=\"" ++
    t.bg ++ "\" stroke=\"" ++ t.cardBorder ++
    "\" stroke-width=\"1\" filter=\"url(#shadow)\"/>\n\n  <!-- Header Section -->\n  <g transform=\"translate(25, 20)\">\n    <!-- Profile Image (clickable) -->\n    <a href=\"" ++
    profileLink ++ "\" target=\"_blank\">\n      <circle cx=\"40\" cy=\"40\" r=\"42\" fill=\"" ++
    t.cardBorder ++ "\"/>\n      " ++
    (match options.profileImage with
     | some img =>
       "<image href=\"" ++ img ++
         "\" x=\"0\" y=\"0\" width=\"80\" height=\"80\" clip-path=\"url(#profileClip)\" style=\"cursor: pointer;\"/>"
     | none => "<circle cx=\"40\" cy=\"40\" r=\"40\" fill=\"" ++ t.colors.getD 2 "" ++ "\"/>") ++
    "\n    </a>\n\n    <!-- Name and Info (clickable) -->\n    <a href=\"" ++ profileLink ++
    "\" target=\"_blank\">\n      <text x=\"100\" y=\"35\" font-family=\"\x27Segoe UI\x27, Arial, sans-serif\" font-size=\"28\" font-weight=\"600\" fill=\"" ++
    (if options.usernameGradient then "url(#usernameGradient)" else t.text) ++
    "\" style=\"cursor: pointer;\">" ++ escapeXml (some displayName) ++
    "</text>\n    </a>\n    <a href=\"" ++ profileLink ++
    "\" target=\"_blank\">\n      <text x=\"100\" y=\"60\" font-family=\"\x27Segoe UI\x27, Arial, sans-serif\" font-size=\"14\" font-weight=\"500\" style=\"cursor: pointer;\">\n        <tspan fill=\"" ++
    t.textMuted ++ "\">@" ++ escapeXml (some username) ++
    "</tspan>\n      </text>\n    </a>\n    <text x=\"185\" y=\"60\" font-family=\"\x27Segoe UI\x27, Arial, sans-serif\" font-size=\"14\" font-weight=\"500\">\n      <tspan fill=\"" ++
    t.textMuted ++ "\">•</tspan>\n      <tspan dx=\"8\" fill=\"" ++ t.text ++ "\">" ++
    toString options.followers ++ "</tspan>\n      <tspan fill=\"" ++ t.textMuted ++
    "\"> Followers</tspan>\n      <tspan dx=\"8\" fill=\"" ++ t.textMuted ++
    "\">•</tspan>\n      <tspan dx=\"8\" fill=\"" ++ t.text ++ "\">" ++
    toString options.following ++ "</tspan>\n      <tspan fill=\"" ++ t.textMuted ++
    "\"> Following</tspan>\n    </text>\n\n    <!-- Letterboxd Logo (clickable, links to main site) -->\n    " ++
    (match options.logoBase64 with
     | some logo =>
       "<a href=\"https://letterboxd.com/\" target=\"_blank\">\n      <g transform=\"translate(" ++
         toString (svgWidth - 117) ++ ", 0)\">\n        <image href=\"" ++ logo ++
         "\" x=\"0\" y=\"4\" width=\"72\" height=\"72\" style=\"cursor: pointer;\"/>\n      </g>\n    </a>"
     | none => "") ++
    "\n  </g>\n\n  <!-- Stats Row -->\n  <g transform=\"translate(25, 115)\" font-family=\"\x27Segoe UI\x27, Arial, sans-serif\">\n    <text x=\"0\" y=\"20\" font-size=\"16\" font-weight=\"600\" fill=\"" ++
    t.text ++ "\">" ++ toString displayYear ++
    "</text>\n    <text x=\"60\" y=\"20\" font-size=\"14\" font-weight=\"500\" fill=\"" ++
    t.textMuted ++ "\">" ++ toString totalFilms ++
    " Movies</text>\n    \n    <!-- Days Active with hover tooltip -->\n    <g class=\"days-active-group\" transform=\"translate(170, 5)\">\n      <text x=\"0\" y=\"15\" font-size=\"14\" font-weight=\"500\" fill=\"" ++
    t.textMuted ++ "\">" ++ toString daysActive ++
    " Days Active</text>\n      <g class=\"days-active-tooltip\" transform=\"translate(-20, -115)\">\n        <rect x=\"0\" y=\"0\" width=\"200\" height=\"105\" rx=\"6\" fill=\"" ++
    t.tooltipBg ++ "\" stroke=\"" ++ t.tooltipBorder ++
    "\" stroke-width=\"1\"/>\n        <text x=\"100\" y=\"18\" font-size=\"11\" font-weight=\"600\" fill=\"" ++
    t.tooltipText ++ "\" text-anchor=\"middle\">Weekly Distribution</text>\n        " ++
    weeklyBars weekStart weeklyDistribution maxWeeklyCount t ++
    "\n      </g>\n    </g>\n    \n    <!-- Streak with hover tooltip -->\n    <g class=\"streak-group\" transform=\"translate(310, 5)\">\n      <path d=\"M8.5 14.5A2.5 2.5 0 0 0 11 12c0-1.38-.5-2-1-3-1.072-2.143-.224-4.054 2-6 .5 2.5 2 4.9 4 6.5 2 1.6 3 3.5 3 5.5a7 7 0 1 1-14 0c0-1.153.433-2.294 1-3a2.5 2.5 0 0 0 2.5 2.5z\"\n            stroke=\"" ++
    (if 0 < streak.length then "#f97316" else t.textMuted) ++
    "\" stroke-width=\"1.5\" stroke-linecap=\"round\" stroke-linejoin=\"round\" fill=\"" ++
    (if 0 < streak.length then "#f97316" else "none") ++
    "\" fill-opacity=\"0.2\" transform=\"scale(0.75)\"/>\n      <text x=\"18\" y=\"13\" font-size=\"14\" font-weight=\"500\" fill=\"" ++
    t.textMuted ++ "\">" ++ toString streak.length ++ " Day Streak</text>\n      " ++
    (if 0 < streak.length then
      "<g class=\"streak-tooltip\" transform=\"translate(0, -45)\">\n        <rect x=\"-10\" y=\"0\" width=\"180\" height=\"36\" rx=\"6\" fill=\"" ++
        t.tooltipBg ++ "\" stroke=\"" ++ t.tooltipBorder ++
        "\" stroke-width=\"1\"/>\n        <text x=\"5\" y=\"23\" font-size=\"12\" fill=\"" ++
        t.tooltipText ++ "\">" ++ isoOrNull streak.startDate ++ " → " ++
        isoOrNull streak.endDate ++ "</text>\n      </g>"
     else "") ++
    "\n    </g>\n\n    <!-- Legend (right side) -->\n    <g transform=\"translate(" ++
    toString (svgWidth - 200) ++ ", 0)\">\n      <text x=\"0\" y=\"20\" font-size=\"12\" fill=\"" ++
    t.textMuted ++ "\">" ++ (if mode == "rating" then "Low" else "Less") ++ "</text>"
  let legend := String.join ((List.range 5).map (fun i =>
    "\n      <rect x=\"" ++ toString (35 + i * 18) ++
      "\" y=\"7\" width=\"13\" height=\"13\" rx=\"2\" fill=\"" ++ t.colors.getD i "" ++ "\"/>"))
  let afterLegend :=
    "\n      <text x=\"" ++ toString (35 + 5 * 18 + 5) ++
    "\" y=\"20\" font-size=\"12\" fill=\"" ++ t.textMuted ++ "\">" ++
    (if mode == "rating" then "High" else "More") ++
    "</text>\n    </g>\n  </g>\n\n  <!-- Month Labels -->\n  <g transform=\"translate(51, " ++
    toString (165 - 8) ++ ")\" font-family=\"\x27Segoe UI\x27, Arial, sans-serif\">"
  let monthLabels := String.join ((List.range 12).map (fun (i : Nat) =>
    let firstDayOfMonth := toDayIndex { year := displayYear, month := (i : Int) + 1, day := 1 }
    let daysSinceStart := firstDayOfMonth - startDate
    if daysSinceStart < 0 then ""
    else
      let weekIndex := daysSinceStart / 7
      let x := weekIndex * (14 + 3)
      "<text x=\"" ++ toString x ++ "\" y=\"0\" font-size=\"11\" fill=\"" ++ t.textMuted ++
        "\" font-weight=\"500\">" ++ monthNames.getD i "" ++ "</text>"))
  let dayLabels :=
    "\n  </g>\n\n  <!-- Day Labels -->\n  <g transform=\"translate(26, 165)\" font-family=\"\x27Segoe UI\x27, Arial, sans-serif\">\n    <text x=\"0\" y=\"" ++
    toString (0 * (14 + 3) + 11) ++ "\" font-size=\"10\" fill=\"" ++ t.textMuted ++
    "\" text-anchor=\"end\">" ++ (days.getD 0 "").take 1 ++
    "</text>\n    <text x=\"0\" y=\"" ++ toString (2 * (14 + 3) + 11) ++
    "\" font-size=\"10\" fill=\"" ++ t.textMuted ++ "\" text-anchor=\"end\">" ++
    (days.getD 2 "").take 1 ++ "</text>\n    <text x=\"0\" y=\"" ++
    toString (4 * (14 + 3) + 11) ++ "\" font-size=\"10\" fill=\"" ++ t.textMuted ++
    "\" text-anchor=\"end\">" ++ (days.getD 4 "").take 1 ++
    "</text>\n    <text x=\"0\" y=\"" ++ toString (6 * (14 + 3) + 11) ++
    "\" font-size=\"10\" fill=\"" ++ t.textMuted ++ "\" text-anchor=\"end\">" ++
    (days.getD 6 "").take 1 ++
    "</text>\n  </g>\n\n  <!-- Activity Grid -->\n  <g transform=\"translate(51, 165)\">"
  let cellsText := String.join ((List.range 7).map (fun day =>
    String.join ((List.range totalWeeks.toNat).map (fun week =>
      cellSvg username startDate svgWidth mode maxCount t sortedEntries displayYear day week))))
  header ++ legend ++ afterLegend ++ monthLabels ++ dayLabels ++ cellsText ++
    "\n  </g>\n</svg>"

/-! ## Helper lemmas -/

theorem insertLe_perm (le : α → α → Bool) (x : α) (l : List α) :
    (insertLe le x l).Perm (x :: l) := by
  induction l with
  | nil => exact List.Perm.refl _
  | cons y ys ih =>
    by_cases h : le x y
    · simp [insertLe, h]
    · simp only [insertLe, h, if_neg, Bool.not_eq_true]
      exact ((ih.cons y).trans (List.Perm.swap x y ys)).symm.symm

theorem stableSort_perm (le : α → α → Bool) (l : List α) :
    (stableSort le l).Perm l := by
  induction l with
  | nil => exact List.Perm.refl _
  | cons x xs ih =>
    simpa [stableSort] using (insertLe_perm le x (stableSort le xs)).trans (ih.cons x)

theorem daysToJan1_succ (y : Int) :
    daysToJan1 (y + 1) = daysToJan1 y + (if isLeapYear y then 366 else 365) := by
  unfold daysToJan1
  split
  case isTrue h =>
    simp only [isLeapYear, Bool.and_eq_true, Bool.or_eq_true, beq_iff_eq, bne_iff_ne] at h
    omega
  case isFalse h =>
    simp only [isLeapYear, Bool.and_eq_true, Bool.or_eq_true, beq_iff_eq, bne_iff_ne] at h
    push_neg at h
    omega

theorem dayOfYear_bounds (d : Ymd) (h : validYmd d) :
    0 ≤ monthOffset (isLeapYear d.year) d.month + d.day - 1 ∧
    monthOffset (isLeapYear d.year) d.month + d.day - 1 ≤
      (if isLeapYear d.year then 365 else 364) := by
  obtain ⟨y, m, day⟩ := d
  obtain ⟨h1, h2, h3, h4⟩ := h
  simp only at h1 h2 h3 h4 ⊢
  interval_cases m <;>
    cases hl : isLeapYear y <;>
      simp [daysInMonth, monthOffset, hl] at h4 ⊢ <;>
        omega

theorem toDayIndex_bounds (d : Ymd) (h : validYmd d) :
    daysToJan1 d.year ≤ toDayIndex d ∧ toDayIndex d ≤ daysToJan1 (d.year + 1) - 1 := by
  have hb := dayOfYear_bounds d h
  have hs := daysToJan1_succ d.year
  unfold toDayIndex
  cases hl : isLeapYear d.year <;> simp [hl] at hb hs <;> omega

theorem yearEndIdx_eq (y : Int) : yearEndIdx y = daysToJan1 (y + 1) - 1 := by
  have hs := daysToJan1_succ y
  unfold yearEndIdx toDayIndex
  cases hl : isLeapYear y <;> simp [monthOffset, hl] at hs ⊢ <;> omega

theorem alignedStart_spec (y : Int) (ws : String) :
    alignedStartIdx y ws ≤ daysToJan1 y ∧
    daysToJan1 y - alignedStartIdx y ws ≤ 6 ∧
    weekdayOf (alignedStartIdx y ws) = (if ws == "monday" then 1 else 0) := by
  simp only [alignedStartIdx, weekdayOf]
  split <;> omega

theorem rowIndexOf_bounds (ws : String) (d : Int) :
    0 ≤ rowIndexOf ws d ∧ rowIndexOf ws d < 7 := by
  simp only [rowIndexOf, weekdayOf]
  split <;> omega

theorem sumGrid_update (g : Nat × Nat → Nat) (a b tw : Nat) (ha : a < 7) (hb : b < tw) :
    sumGrid (Function.update g (a, b) (g (a, b) + 1)) tw = sumGrid g tw + 1 := by
  classical
  have hmem : (a, b) ∈ Finset.range 7 ×ˢ Finset.range tw := by
    simp [Finset.mem_product, ha, hb]
  unfold sumGrid
  rw [Finset.sum_update_of_mem hmem]
  rw [Finset.sum_eq_add_sum_diff_singleton hmem (fun p => g p)]
  omega

theorem gridFold_sum (start tw : Int) (ws : String) (l : List Entry) :
    ∀ acc : (Nat × Nat → Nat) × Nat,
      sumGrid (l.foldl (gridStep start tw ws) acc).1 tw.toNat =
        sumGrid acc.1 tw.toNat +
          l.countP (fun e =>
            decide (0 ≤ (e.dayIdx - start) / 7 ∧ (e.dayIdx - start) / 7 < tw)) := by
  induction l with
  | nil => intro acc; simp
  | cons e rest ih =>
    intro acc
    rw [List.foldl_cons, List.countP_cons, ih (gridStep start tw ws acc e)]
    by_cases hp : 0 ≤ (e.dayIdx - start) / 7 ∧ (e.dayIdx - start) / 7 < tw
    · have hrow := rowIndexOf_bounds ws e.dayIdx
      have hstep : (gridStep start tw ws acc e).1 =
          Function.update acc.1 ((rowIndexOf ws e.dayIdx).toNat, ((e.dayIdx - start) / 7).toNat)
            (acc.1 ((rowIndexOf ws e.dayIdx).toNat, ((e.dayIdx - start) / 7).toNat) + 1) := by
        simp only [gridStep]
        rw [if_pos hp]
      rw [hstep, sumGrid_update _ _ _ _ (by omega) (by omega)]
      simp [hp]
      omega
    · have hstep : (gridStep start tw ws acc e).1 = acc.1 := by
        simp only [gridStep]
        rw [if_neg hp]
      rw [hstep]
      simp [hp]

theorem yearEntry_placed (y : Int) (ws : String) (e : Entry) (hv : validYmd e.date)
    (hy : e.date.year = y) :
    alignedStartIdx y ws ≤ e.dayIdx ∧ e.dayIdx ≤ yearEndIdx y ∧
    0 ≤ (e.dayIdx - alignedStartIdx y ws) / 7 ∧
    (e.dayIdx - alignedStartIdx y ws) / 7 < totalWeeksOf y ws := by
  have hb := toDayIndex_bounds e.date hv
  have ha := alignedStart_spec y ws
  have he := yearEndIdx_eq y
  rw [hy] at hb
  unfold totalWeeksOf totalDaysOf at *
  unfold Entry.dayIdx
  omega

theorem countP_window_succ (l : List Entry) (start : Int) (n : Nat) :
    l.countP (fun e => decide (start ≤ e.dayIdx) && decide (e.dayIdx < start + (n : Int))) +
      l.countP (fun e => e.dayIdx == start + (n : Int)) =
    l.countP (fun e =>
      decide (start ≤ e.dayIdx) && decide (e.dayIdx < start + ((n : Int) + 1))) := by
  induction l with
  | nil => simp
  | cons e rest ih =>
    simp only [List.countP_cons, beq_iff_eq]
    by_cases h1 : start ≤ e.dayIdx <;> by_cases h2 : e.dayIdx < start + (n : Int) <;>
      by_cases h3 : e.dayIdx = start + (n : Int) <;>
        by_cases h4 : e.dayIdx < start + ((n : Int) + 1) <;>
          simp [h1, h2, h3, h4] <;> omega

theorem countP_day_window (l : List Entry) (start : Int) (n : Nat) :
    ((List.range n).map (fun (off : Nat) =>
        l.countP (fun e => e.dayIdx == start + (off : Int)))).sum =
      l.countP (fun e =>
        decide (start ≤ e.dayIdx) && decide (e.dayIdx < start + (n : Int))) := by
  induction n with
  | zero =>
    have hz : l.countP
        (fun e => decide (start ≤ e.dayIdx) && decide (e.dayIdx < start + ((0 : Nat) : Int))) =
        0 := by
      rw [List.countP_eq_zero]
      intro a _
      simp
    simpa using hz.symm
  | succ n ih =>
    rw [List.range_succ, List.map_append, List.sum_append]
    simp only [List.map_cons, List.map_nil, List.sum_cons, List.sum_nil, Nat.add_zero]
    rw [ih, countP_window_succ]
    congr 2

theorem mem_dedupFirst [BEq α] [LawfulBEq α] {a : α} :
    ∀ {l seen : List α}, a ∈ l → a ∉ seen → a ∈ dedupFirst seen l := by
  intro l
  induction l with
  | nil => intro seen h _; simp at h
  | cons x xs ih =>
    intro seen h hs
    by_cases hax : a = x
    · subst hax
      simp [dedupFirst, hs]
    · rcases List.mem_cons.mp h with h | h
      · exact absurd h hax
      · unfold dedupFirst
        split
        · exact ih h hs
        · refine List.mem_cons_of_mem _ (ih h ?_)
          simp [hax, hs]

theorem foldl_min_le (zs : List Int) : ∀ c : Int, List.foldl min c zs ≤ c := by
  induction zs with
  | nil => intro c; simp
  | cons d ws ih => intro c; exact le_trans (ih (min c d)) (by simp)

theorem foldl_min_le_mem (zs : List Int) : ∀ c x, x ∈ zs → List.foldl min c zs ≤ x := by
  induction zs with
  | nil => intro c x hx; simp at hx
  | cons d ws ih =>
    intro c x hx
    rcases List.mem_cons.mp hx with rfl | hx
    · exact le_trans (foldl_min_le ws (min c x)) (by simp)
    · exact ih _ x hx

theorem listMin_le_of_mem {l : List Int} {x : Int} (h : x ∈ l) : listMin l ≤ x := by
  cases l with
  | nil => simp at h
  | cons a xs =>
    simp only [listMin]
    rcases List.mem_cons.mp h with rfl | h
    · exact foldl_min_le xs _
    · exact foldl_min_le_mem xs a _ h

theorem le_foldl_max (zs : List Int) : ∀ c : Int, c ≤ List.foldl max c zs := by
  induction zs with
  | nil => intro c; simp
  | cons d ws ih => intro c; exact le_trans (by simp) (ih (max c d))

theorem le_foldl_max_mem (zs : List Int) : ∀ c x, x ∈ zs → x ≤ List.foldl max c zs := by
  induction zs with
  | nil => intro c x hx; simp at hx
  | cons d ws ih =>
    intro c x hx
    rcases List.mem_cons.mp hx with rfl | hx
    · exact le_trans (by simp) (le_foldl_max ws (max c x))
    · exact ih _ x hx

theorem le_listMax_of_mem {l : List Int} {x : Int} (h : x ∈ l) : x ≤ listMax l := by
  cases l with
  | nil => simp at h
  | cons a xs =>
    simp only [listMax]
    rcases List.mem_cons.mp h with rfl | h
    · exact le_foldl_max xs _
    · exact le_foldl_max_mem xs a _ h

theorem daysToJan1_mono {y1 y2 : Int} (h : y1 ≤ y2) : daysToJan1 y1 ≤ daysToJan1 y2 := by
  unfold daysToJan1
  omega

/-- Membership in `selectedYearsOf` when explicit years are given. -/
theorem mem_selectedYears {ys : List Int} {y : Int} (hne : ys ≠ [])
    (hy : y ∈ ys) (yearOpt : Option Int) (se : List Entry) (nowY : Int) :
    y ∈ selectedYearsOf ys yearOpt se nowY := by
  have hb : ys.isEmpty = false := by
    cases ys with
    | nil => exact absurd rfl hne
    | cons a l => rfl
  unfold selectedYearsOf
  rw [hb]
  simp only [Bool.not_false, if_true]
  exact ((stableSort_perm _ _).mem_iff).mpr (mem_dedupFirst hy (by simp))

theorem calendarBase_counts_sum (u wsn : String) (se : List Entry) (as rs re : Int)
    (h0 : 0 ≤ re - as + 1) :
    ((jsonCalendarBase u wsn se as rs re).map (fun c => c.count)).sum =
      se.countP (fun e => decide (as ≤ e.dayIdx) && decide (e.dayIdx ≤ re)) := by
  unfold jsonCalendarBase
  rw [List.map_map]
  have hfun : ((fun (c : JsonCell) => c.count) ∘ fun (dayOffset : Nat) =>
      let d := as + (dayOffset : Int)
      let dayEntries := se.filter (fun e => e.dayIdx == d)
      let isPadding := decide (d < rs) || decide (d > re)
      ({ date := d
         week := dayOffset / 7
         weekday := if wsn == "monday" then (weekdayOf d + 6) % 7 else weekdayOf d
         count := dayEntries.length
         ratingAvg := ratingAvgOf dayEntries
         films := jsonFilmsOf dayEntries
         level := 0
         inRange := !isPadding
         url := diaryUrlFor u d } : JsonCell)) =
      fun (off : Nat) => se.countP (fun e => e.dayIdx == as + (off : Int)) := by
    funext off
    simp [Function.comp, List.countP_eq_length_filter]
  rw [hfun, countP_day_window]
  refine List.countP_congr (fun e _ => ?_)
  have hcast : (((re - as + 1).toNat : Int)) = re - as + 1 := by omega
  simp only [Bool.and_eq_true, decide_eq_true_eq, hcast]
  omega

theorem exportAlignedStart_bounds (entries : List Entry) (opts : ExportOptions)
    (nowYear : Int) :
    exportAlignedStart entries opts nowYear ≤ exportRangeStart entries opts nowYear ∧
    exportRangeStart entries opts nowYear - exportAlignedStart entries opts nowYear ≤ 6 := by
  simp only [exportAlignedStart, weekdayOf]
  split <;> omega

theorem map_count_setLevel (l : List JsonCell) (g : JsonCell → Nat) :
    ((l.map (fun c => { c with level := g c })).map (fun c => c.count)) =
      l.map (fun c => c.count) := by
  rw [List.map_map]
  rfl

theorem sortEntriesByDate_perm (l : List Entry) : (sortEntriesByDate l).Perm l :=
  stableSort_perm _ _

/-! ## Claims -/

/-- C1: the sum of all grid cell counts equals the number of entries whose
date lies in the aligned range and belongs to the requested year(s): for
the SVG grid of `generateSvg` this holds for every entry list (entries are
filtered to the display year internally); for the `buildJsonExport`
calendar it holds for every entry list whose entries all belong to the
requested years (the pipeline fetches and parses per requested year, so
its inputs always do). -/
theorem gridSum_matches_entryCount (entries : List Entry) (y : Int) (ws : String)
    (hvalid : ∀ e ∈ entries, validYmd e.date) :
    sumGrid (gridOf entries y ws).1 (totalWeeksOf y ws).toNat =
      entries.countP (fun e =>
        decide (alignedStartIdx y ws ≤ e.dayIdx) && decide (e.dayIdx ≤ yearEndIdx y) &&
          (e.date.year == y)) ∧
    (∀ (opts : ExportOptions) (nowYear : Int), opts.years ≠ [] →
      (∀ e ∈ entries, e.date.year ∈ opts.years) →
      ((buildJsonExport entries opts nowYear).calendar.map (fun c => c.count)).sum =
        entries.countP (fun e =>
          decide (exportAlignedStart entries opts nowYear ≤ e.dayIdx) &&
            decide (e.dayIdx ≤ exportRangeEnd entries opts nowYear) &&
            decide (e.date.year ∈ opts.years))) := by
  constructor
  · unfold gridOf
    rw [gridFold_sum]
    have hz : sumGrid (((fun _ => 0, 0) : (Nat × Nat → Nat) × Nat).1)
        (totalWeeksOf y ws).toNat = 0 := by
      simp [sumGrid]
    rw [hz, Nat.zero_add]
    unfold sortedEntriesFor sortEntriesByDate
    rw [(stableSort_perm _ _).countP_eq]
    unfold svgYearFilter
    rw [List.countP_filter]
    refine List.countP_congr (fun e he => ?_)
    simp only [Bool.and_eq_true, decide_eq_true_eq, beq_iff_eq]
    constructor
    · rintro ⟨hplaced, hy⟩
      have hp := yearEntry_placed y ws e (hvalid e he) hy
      exact ⟨⟨hp.1, hp.2.1⟩, hy⟩
    · rintro ⟨hwin, hy⟩
      have hp := yearEntry_placed y ws e (hvalid e he) hy
      exact ⟨⟨hp.2.2.1, hp.2.2.2⟩, hy⟩
  · intro opts nowYear hys hmem
    obtain ⟨y0, hy0⟩ := List.exists_mem_of_ne_nil opts.years hys
    have hy0s : y0 ∈ exportSelectedYears entries opts nowYear :=
      mem_selectedYears hys hy0 _ _ _
    have hminmax : listMin (exportSelectedYears entries opts nowYear) ≤
        listMax (exportSelectedYears entries opts nowYear) :=
      le_trans (listMin_le_of_mem hy0s) (le_listMax_of_mem hy0s)
    have hre : exportRangeEnd entries opts nowYear =
        daysToJan1 (listMax (exportSelectedYears entries opts nowYear) + 1) - 1 :=
      yearEndIdx_eq _
    have hrs : exportRangeStart entries opts nowYear =
        daysToJan1 (listMin (exportSelectedYears entries opts nowYear)) := rfl
    have hmono := daysToJan1_mono (le_trans hminmax (by omega :
        listMax (exportSelectedYears entries opts nowYear) ≤
        listMax (exportSelectedYears entries opts nowYear) + 1))
    have hstep := daysToJan1_succ (listMax (exportSelectedYears entries opts nowYear))
    have halign := exportAlignedStart_bounds entries opts nowYear
    have h0 : 0 ≤ exportRangeEnd entries opts nowYear -
        exportAlignedStart entries opts nowYear + 1 := by
      cases hlp : isLeapYear (listMax (exportSelectedYears entries opts nowYear)) <;>
        rw [hlp] at hstep <;> simp at hstep <;> omega
    have hcal : ∃ g : JsonCell → Nat, (buildJsonExport entries opts nowYear).calendar =
        (jsonCalendarBase opts.username (exportWeekStart opts) (sortEntriesByDate entries)
            (exportAlignedStart entries opts nowYear) (exportRangeStart entries opts nowYear)
            (exportRangeEnd entries opts nowYear)).map
          (fun c => { c with level := g c }) := ⟨_, rfl⟩
    obtain ⟨g, hg⟩ := hcal
    rw [hg, map_count_setLevel, calendarBase_counts_sum _ _ _ _ _ _ h0]
    rw [(sortEntriesByDate_perm entries).countP_eq]
    refine List.countP_congr (fun e he => ?_)
    have hv := hvalid e he
    have hm := hmem e he
    have hys' : e.date.year ∈ exportSelectedYears entries opts nowYear :=
      mem_selectedYears hys hm _ _ _
    have hb := toDayIndex_bounds e.date hv
    have hlo : daysToJan1 (listMin (exportSelectedYears entries opts nowYear)) ≤
        daysToJan1 e.date.year := daysToJan1_mono (listMin_le_of_mem hys')
    have hhi : daysToJan1 (e.date.year + 1) ≤
        daysToJan1 (listMax (exportSelectedYears entries opts nowYear) + 1) :=
      daysToJan1_mono (by have := le_listMax_of_mem hys'; omega)
    simp only [Bool.and_eq_true, decide_eq_true_eq]
    constructor
    · rintro ⟨h1, h2⟩
      refine ⟨⟨h1, h2⟩, hm⟩
    · rintro ⟨⟨h1, h2⟩, _⟩
      exact ⟨h1, h2⟩

/-- Witness for C1: three entries on 2024-01-01..03, year 2024,
week-start sunday, export years `[2024]`. -/
theorem gridSum_matches_entryCount_witness :
    sumGrid (gridOf
        ([⟨⟨2024,1,1⟩,"A","2020",none,none⟩, ⟨⟨2024,1,2⟩,"B","2021",none,none⟩,
          ⟨⟨2024,1,3⟩,"C","2022",some (7/2),none⟩] : List Entry) 2024 "sunday").1
      (totalWeeksOf 2024 "sunday").toNat =
      List.countP (fun (e : Entry) =>
        decide (alignedStartIdx 2024 "sunday" ≤ e.dayIdx) &&
        decide (e.dayIdx ≤ yearEndIdx 2024) && (e.date.year == 2024))
        [⟨⟨2024,1,1⟩,"A","2020",none,none⟩, ⟨⟨2024,1,2⟩,"B","2021",none,none⟩,
         ⟨⟨2024,1,3⟩,"C","2022",some (7/2),none⟩] ∧
    ((buildJsonExport
        [⟨⟨2024,1,1⟩,"A","2020",none,none⟩, ⟨⟨2024,1,2⟩,"B","2021",none,none⟩,
         ⟨⟨2024,1,3⟩,"C","2022",some (7/2),none⟩]
        { username := "u", years := [2024] } 2025).calendar.map (fun c => c.count)).sum =
      List.countP (fun (e : Entry) =>
        decide (exportAlignedStart
            [⟨⟨2024,1,1⟩,"A","2020",none,none⟩, ⟨⟨2024,1,2⟩,"B","2021",none,none⟩,
             ⟨⟨2024,1,3⟩,"C","2022",some (7/2),none⟩]
            { username := "u", years := [2024] } 2025 ≤ e.dayIdx) &&
        decide (e.dayIdx ≤ exportRangeEnd
            [⟨⟨2024,1,1⟩,"A","2020",none,none⟩, ⟨⟨2024,1,2⟩,"B","2021",none,none⟩,
             ⟨⟨2024,1,3⟩,"C","2022",some (7/2),none⟩]
            { username := "u", years := [2024] } 2025) &&
        decide (e.date.year ∈ ({ username := "u", years := [2024] } : ExportOptions).years))
        [⟨⟨2024,1,1⟩,"A","2020",none,none⟩, ⟨⟨2024,1,2⟩,"B","2021",none,none⟩,
         ⟨⟨2024,1,3⟩,"C","2022",some (7/2),none⟩] :=
  ⟨(gridSum_matches_entryCount _ 2024 "sunday" (by decide)).1,
   (gridSum_matches_entryCount _ 2024 "sunday" (by decide)).2
     { username := "u", years := [2024] } 2025 (by decide) (by decide)⟩

/-- C3: for both week-start settings, the grid start is January 1 of the
target year shifted back (by at most six days) to the prior occurrence of
the configured week-start day, so the weekday of the aligned start — and
of the date at row 0 of every grid column — equals the configured
week-start day (0 = Sunday, 1 = Monday). -/
theorem alignedStart_weekday_correct (y : Int) :
    (alignedStartIdx y "sunday" ≤ daysToJan1 y ∧
      daysToJan1 y - alignedStartIdx y "sunday" ≤ 6 ∧
      weekdayOf (alignedStartIdx y "sunday") = 0 ∧
      ∀ k : Nat, weekdayOf (alignedStartIdx y "sunday" + 7 * k) = 0) ∧
    (alignedStartIdx y "monday" ≤ daysToJan1 y ∧
      daysToJan1 y - alignedStartIdx y "monday" ≤ 6 ∧
      weekdayOf (alignedStartIdx y "monday") = 1 ∧
      ∀ k : Nat, weekdayOf (alignedStartIdx y "monday" + 7 * k) = 1) := by
  have hs := alignedStart_spec y "sunday"
  have hm := alignedStart_spec y "monday"
  have hbs : ("sunday" == "monday") = false := by decide
  have hbm : ("monday" == "monday") = true := by decide
  rw [hbs] at hs
  rw [hbm] at hm
  simp only [if_true, if_false, Bool.false_eq_true, Bool.true_eq_false, reduceIte] at hs hm
  obtain ⟨hs1, hs2, hs3⟩ := hs
  obtain ⟨hm1, hm2, hm3⟩ := hm
  refine ⟨⟨hs1, hs2, hs3, fun k => ?_⟩, ⟨hm1, hm2, hm3, fun k => ?_⟩⟩ <;>
    · unfold weekdayOf at *
      omega

/-- C2: `calculateStreak` on an empty list yields length 0; entries whose
unique sorted dates are exactly `D, D+1, D+2` (duplicates counted once)
yield the streak `(3, D, D+2)`; unique dates `D, D+2` yield length 1. -/
theorem calculateStreak_laws :
    (calculateStreak [] = { length := 0, startDate := none, endDate := none }) ∧
    (∀ (entries : List Entry) (D : Int), uniqueDates entries = [D, D + 1, D + 2] →
      calculateStreak entries =
        { length := 3, startDate := some D, endDate := some (D + 2) }) ∧
    (∀ (entries : List Entry) (D : Int), uniqueDates entries = [D, D + 2] →
      (calculateStreak entries).length = 1) := by
  refine ⟨by decide, ?_, ?_⟩
  · intro entries D h
    have hne : entries.isEmpty = false := by
      cases entries with
      | nil => rw [show uniqueDates ([] : List Entry) = [] from rfl] at h; simp at h
      | cons a l => rfl
    have h1 : D + 1 - D = 1 := by omega
    have h2 : D + 2 - (D + 1) = 1 := by omega
    simp [calculateStreak, hne, h, streakLoop, h1, h2]
  · intro entries D h
    have hne : entries.isEmpty = false := by
      cases entries with
      | nil => rw [show uniqueDates ([] : List Entry) = [] from rfl] at h; simp at h
      | cons a l => rfl
    have h2 : ¬(D + 2 - D = 1) := by omega
    simp [calculateStreak, hne, h, streakLoop, h2]

/-- Witness for C2: four entries on 2024-01-02, 2024-01-01 (twice) and
2024-01-03 have unique sorted dates 19723, 19724, 19725 and streak
`(3, 2024-01-01, 2024-01-03)`. -/
theorem calculateStreak_laws_witness :
    uniqueDates
        [⟨⟨2024,1,2⟩,"A","2020",none,none⟩, ⟨⟨2024,1,1⟩,"B","2020",none,none⟩,
         ⟨⟨2024,1,1⟩,"B","2020",none,none⟩, ⟨⟨2024,1,3⟩,"C","2020",some (7/2),none⟩] =
      [19723, 19723 + 1, 19723 + 2] ∧
    calculateStreak
        [⟨⟨2024,1,2⟩,"A","2020",none,none⟩, ⟨⟨2024,1,1⟩,"B","2020",none,none⟩,
         ⟨⟨2024,1,1⟩,"B","2020",none,none⟩, ⟨⟨2024,1,3⟩,"C","2020",some (7/2),none⟩] =
      { length := 3, startDate := some 19723, endDate := some (19723 + 2) } :=
  ⟨by decide, calculateStreak_laws.2.1 _ 19723 (by decide)⟩

/-- C4: in rating mode, a populated cell's color level is determined by
the cell's averaged rating through half-open, lower-bound-inclusive
intervals: below 5/2 level 1, in [5/2, 7/2) level 2, in [7/2, 9/2)
level 3, and at or above 9/2 level 4. -/
theorem ratingMode_color_intervals (colors : List String) (maxCount count : Nat)
    (films : List FilmInfo) (hne : films ≠ []) (hc : count = films.length) :
    (cellAvgRating films count < 5/2 →
      getColor "rating" maxCount colors count films = colors.getD 1 "") ∧
    (5/2 ≤ cellAvgRating films count → cellAvgRating films count < 7/2 →
      getColor "rating" maxCount colors count films = colors.getD 2 "") ∧
    (7/2 ≤ cellAvgRating films count → cellAvgRating films count < 9/2 →
      getColor "rating" maxCount colors count films = colors.getD 3 "") ∧
    (9/2 ≤ cellAvgRating films count →
      getColor "rating" maxCount colors count films = colors.getD 4 "") := by
  have hc0 : (count == 0) = false := by
    cases films with
    | nil => exact absurd rfl hne
    | cons f fs => subst hc; simp
  have hfe : films.isEmpty = false := by
    cases films with
    | nil => exact absurd rfl hne
    | cons f fs => rfl
  unfold getColor
  simp only [hc0, hfe, Bool.not_false, Bool.and_true, beq_self_eq_true, Bool.false_eq_true,
    if_false, if_true, reduceIte]
  refine ⟨?_, ?_, ?_, ?_⟩
  · intro h
    rw [if_pos h]
  · intro h1 h2
    rw [if_neg (not_lt.mpr h1), if_pos h2]
  · intro h1 h2
    rw [if_neg (not_lt.mpr (le_trans (by norm_num) h1)), if_neg (not_lt.mpr h1), if_pos h2]
  · intro h
    rw [if_neg (not_lt.mpr (le_trans (by norm_num) h)),
      if_neg (not_lt.mpr (le_trans (by norm_num) h)), if_neg (not_lt.mpr h)]

/-- Witness for C4: an average rating of exactly 5/2 lands in level 2
(lower bound inclusive), an average of 2 in level 1. -/
theorem ratingMode_color_intervals_witness :
    getColor "rating" 1 darkTheme.colors 1 [⟨"A", "2020", some (5/2)⟩] =
      darkTheme.colors.getD 2 "" ∧
    getColor "rating" 1 darkTheme.colors 1 [⟨"B", "2020", some 2⟩] =
      darkTheme.colors.getD 1 "" :=
  ⟨(ratingMode_color_intervals darkTheme.colors 1 1 [⟨"A", "2020", some (5/2)⟩]
      (by simp) rfl).2.1
      (by norm_num [cellAvgRating]) (by norm_num [cellAvgRating]),
   (ratingMode_color_intervals darkTheme.colors 1 1 [⟨"B", "2020", some 2⟩]
      (by simp) rfl).1
      (by norm_num [cellAvgRating])⟩

/-- C5 (amended): in count mode the SVG cell color level is
`min(4, ceil(count / maxCount * 4))` for populated cells and 0 for empty
cells, so with `maxCount = 1` every active SVG cell is at level 4; the
JSON export's level field, however, is special-cased to 1 whenever
`maxCount = 1`, and is `max(1, min(4, ceil(count / maxCount * 4)))`
only when `maxCount > 1`. -/
theorem countMode_level_mapping (colors : List String) (maxCount count : Nat)
    (films : List FilmInfo) :
    (getColor "count" maxCount colors 0 films = colors.getD 0 "") ∧
    (0 < count → count ≤ maxCount →
      getColor "count" maxCount colors count films =
        colors.getD (min 4 ⌈((count : ℚ) / maxCount) * 4⌉).toNat "") ∧
    (jsonCellLevel maxCount 0 = 0) ∧
    (maxCount = 1 → 0 < count → jsonCellLevel maxCount count = 1) ∧
    (1 < maxCount → 0 < count →
      jsonCellLevel maxCount count = (max 1 (min 4 ⌈((count : ℚ) / maxCount) * 4⌉)).toNat) ∧
    (maxCount = 1 → count = 1 →
      getColor "count" maxCount colors count films = colors.getD 4 "") := by
  refine ⟨?_, ?_, ?_, ?_, ?_, ?_⟩
  · simp [getColor]
  · intro h1 h2
    have hc0 : (count == 0) = false := by simp; omega
    have hm0 : (maxCount == 0) = false := by simp; omega
    have hmode : ("count" == "rating") = false := by decide
    unfold getColor
    simp only [hc0, hm0, hmode, Bool.false_eq_true, if_false, reduceIte, Bool.false_and,
      false_and, Bool.and_eq_true]
    rw [min_comm]
  · simp [jsonCellLevel]
  · intro h1 h2
    have hcle : ¬(count ≤ 0) := by omega
    simp [jsonCellLevel, h1, hcle]
  · intro h1 h2
    have hcle : ¬(count ≤ 0) := by omega
    have hmle : ¬(maxCount ≤ 0) := by omega
    have hm1 : (maxCount == 1) = false := by simp; omega
    simp [jsonCellLevel, hcle, hmle, hm1]
  · intro h1 h2
    subst h1
    subst h2
    have h4 : ⌈((1 : ℚ) / (1 : Nat)) * 4⌉ = 4 := by norm_num
    unfold getColor
    simp only [Nat.cast_one] at h4
    simp [h4]

set_option maxRecDepth 10000 in
/-- Counterexample for C5 as stated: a run with a single diary entry
(`maxCount = 1`) has its one active calendar day at JSON-export level 1,
not at level `min(4, ceil(1/1*4)) = 4`. -/
theorem jsonLevel_maxCountOne_counterexample :
    (buildJsonExport [⟨⟨2024,1,1⟩,"Film A","2020",none,none⟩]
        { username := "u", year := some 2024, years := [2024] } 2025).metaMaxCount = 1 ∧
    (buildJsonExport [⟨⟨2024,1,1⟩,"Film A","2020",none,none⟩]
        { username := "u", year := some 2024, years := [2024] } 2025).calendar.countP
      (fun c => decide (0 < c.count)) = 1 ∧
    (buildJsonExport [⟨⟨2024,1,1⟩,"Film A","2020",none,none⟩]
        { username := "u", year := some 2024, years := [2024] } 2025).calendar.countP
      (fun c => decide (0 < c.count) && (c.level == 1)) = 1 ∧
    (buildJsonExport [⟨⟨2024,1,1⟩,"Film A","2020",none,none⟩]
        { username := "u", year := some 2024, years := [2024] } 2025).calendar.countP
      (fun c => c.level == 4) = 0 ∧
    (4 : Nat) = (min 4 ⌈((1 : ℚ) / (1 : Nat)) * 4⌉).toNat :=
  ⟨by decide, by decide, by decide, by decide, by
    have h : ⌈((1 : ℚ) / (1 : Nat)) * 4⌉ = 4 := by norm_num
    rw [h]
    decide⟩

/-- Witness for C5 (amended): with `maxCount = 1` and one film the SVG
cell is at the level-4 color while the JSON export level is 1. -/
theorem countMode_level_mapping_witness :
    getColor "count" 1 darkTheme.colors 1 [] = darkTheme.colors.getD 4 "" ∧
    jsonCellLevel 1 1 = 1 :=
  ⟨(countMode_level_mapping darkTheme.colors 1 1 []).2.2.2.2.2 rfl rfl,
   (countMode_level_mapping darkTheme.colors 1 1 []).2.2.2.1 rfl (by decide)⟩

/-- C6: `generateSvg` is deterministic — it is a pure function of
`(entries, options)`, and when the display year is passed explicitly the
output does not depend on the wall clock (`nowYear`, the only clock input,
is read solely as the default for an omitted `year` option). -/
theorem generateSvg_deterministic (entries : List Entry) (options : SvgOptions)
    (y : Int) (hy : options.year = some y) (now1 now2 : Int) :
    generateSvg entries options now1 = generateSvg entries options now2 := by
  unfold generateSvg
  rw [hy]
  simp only [Option.getD_some]

/-- Witness for C6: with `year` passed, two runs under different clock
values produce identical text. -/
theorem generateSvg_deterministic_witness :
    generateSvg [⟨⟨2024,1,1⟩,"Film A","2020",some (7/2),none⟩]
        { year := some 2024, username := "u" } 2025 =
      generateSvg [⟨⟨2024,1,1⟩,"Film A","2020",some (7/2),none⟩]
        { year := some 2024, username := "u" } 2031 :=
  generateSvg_deterministic _ _ 2024 rfl 2025 2031

/-- C7 (amended): in `fetchLetterboxdData`, a failure on page 1
propagates to the caller; a failure on a later page is treated as "no
more pages" and the entries gathered so far are returned — but only for
non-challenge failures: a `CloudflareChallengeError` propagates from any
page, including pages after page 1. -/
theorem pagination_failure_policy :
    (∀ (oracle : Nat → PageResult) (fuel : Nat) (cf : Bool), oracle 1 = .err cf →
      fetchLetterboxdData oracle (fuel + 1) = .error cf) ∧
    (∀ (oracle : Nat → PageResult) (fuel page : Nat) (acc : List Entry), 2 ≤ page →
      oracle page = .err false →
      fetchPagesLoop oracle (fuel + 1) page acc = .ok acc) ∧
    (∀ (oracle : Nat → PageResult) (fuel page : Nat) (acc : List Entry),
      oracle page = .err true →
      fetchPagesLoop oracle (fuel + 1) page acc = .error true) := by
  refine ⟨?_, ?_, ?_⟩
  · intro oracle fuel cf h
    unfold fetchLetterboxdData fetchPagesLoop
    rw [h]
    simp
  · intro oracle fuel page acc hp h
    have h1 : (page == 1) = false := by
      simp
      omega
    unfold fetchPagesLoop
    rw [h, h1]
    simp
  · intro oracle fuel page acc h
    unfold fetchPagesLoop
    rw [h]
    simp

/-- Witness for C7 (amended): with page 1 failing the fetch raises; with
pages 1-2 succeeding, no page 3, and a network failure on page 2 of a
second oracle the loop soft-stops with the gathered entries. -/
theorem pagination_failure_policy_witness :
    fetchLetterboxdData (fun _ => PageResult.err false) 5 = .error false ∧
    fetchPagesLoop (fun p => if p = 1 then
        PageResult.ok [⟨⟨2024,1,1⟩,"A","2020",none,none⟩] true else PageResult.err false)
      5 2 [⟨⟨2024,1,1⟩,"A","2020",none,none⟩] =
      .ok [⟨⟨2024,1,1⟩,"A","2020",none,none⟩] :=
  ⟨pagination_failure_policy.1 _ 4 false rfl,
   pagination_failure_policy.2.1 _ 4 2 _ (by omega) rfl⟩

/-- Counterexample for C7 as stated: page 1 succeeds with entries and a
next-page link, page 2 fails with a Cloudflare challenge — the function
raises instead of returning the page-1 entries. -/
theorem pagination_challenge_counterexample :
    fetchLetterboxdData
      (fun p => if p = 1 then
        PageResult.ok [⟨⟨2024,1,1⟩,"A","2020",none,none⟩] true
      else PageResult.err true) 5 = .error true := rfl

/-- C8 (amended): a page is classified as a challenge iff a strong
site-specific marker is present, or a weak marker co-occurs with a
mention of the blocking vendor and a verification phrase.  There is no
content-shape short-circuit: the presence of the expected route markup
does not prevent classification (see the counterexample). -/
theorem challenge_classification_iff (html : String) :
    isCloudflareChallengePage html = true ↔
      ((∃ m ∈ strongMarkers, testI html m = true) ∨
        ((∃ m ∈ weakMarkers, testI html m = true) ∧ testI html "cloudflare" = true ∧
          (∃ v ∈ verificationHints, testI html v = true))) := by
  unfold isCloudflareChallengePage
  cases hb : (html == "") with
  | true =>
    have : html = "" := by simpa using hb
    subst this
    simp only [if_true, reduceIte]
    decide
  | false =>
    simp only [Bool.false_eq_true, if_false, reduceIte]
    by_cases hs : strongMarkers.any (fun pattern => testI html pattern) = true
    · rw [if_pos hs]
      exact iff_of_true rfl (Or.inl (by simpa using List.any_eq_true.mp hs))
    · rw [if_neg hs]
      rw [List.any_eq_true] at hs
      constructor
      · intro h
        rw [Bool.and_eq_true, Bool.and_eq_true] at h
        refine Or.inr ⟨by simpa using List.any_eq_true.mp h.1.1, h.1.2, ?_⟩
        simpa using List.any_eq_true.mp h.2
      · rintro (h | ⟨hw, hcf, hv⟩)
        · exact absurd (by simpa using h) hs
        · rw [Bool.and_eq_true, Bool.and_eq_true]
          exact ⟨⟨List.any_eq_true.mpr (by simpa using hw), hcf⟩,
            List.any_eq_true.mpr (by simpa using hv)⟩

/-- Counterexample for C8 as stated: a page that carries the expected
diary markup (`id="diary-table"`) together with a weak marker, a vendor
mention and a verification phrase is still classified as a challenge —
the expected content does not short-circuit classification. -/
theorem contentShape_no_shortCircuit :
    testI "<table id=\"diary-table\"></table> Just a moment... cloudflare verify"
        "diary-table" = true ∧
    isCloudflareChallengePage
        "<table id=\"diary-table\"></table> Just a moment... cloudflare verify" = true := by
  constructor <;> decide

/-- C9 (amended): the retry delay grows linearly (not exponentially) in
the attempt number — 3000 ms per challenge attempt against 2000 ms per
network-error attempt — carries a jitter of at most one second, and has
no explicit cap (within the 5-attempt budget it stays at most 16000 ms). -/
theorem retryDelay_properties (attempt : Int) (jitter : ℚ) (h1 : 1 ≤ attempt)
    (hj0 : 0 ≤ jitter) (hj1 : jitter < 1) :
    (retryDelayMs (attempt + 1) true jitter - retryDelayMs attempt true jitter = 3000) ∧
    (retryDelayMs (attempt + 1) false jitter - retryDelayMs attempt false jitter = 2000) ∧
    (retryDelayMs attempt true jitter - retryDelayMs attempt false jitter = 1000 * attempt) ∧
    (3000 * attempt ≤ retryDelayMs attempt true jitter ∧
      retryDelayMs attempt true jitter ≤ 3000 * attempt + 1000) ∧
    (2000 * attempt ≤ retryDelayMs attempt false jitter ∧
      retryDelayMs attempt false jitter ≤ 2000 * attempt + 1000) ∧
    (attempt ≤ 5 → retryDelayMs attempt true jitter ≤ 16000) := by
  have h3 : ∀ a : Int, retryDelayMs a true jitter =
      3000 * a + ⌊1000 * jitter + 1/2⌋ := by
    intro a
    unfold retryDelayMs jsRound
    simp only [if_true, reduceIte]
    have : ((3 : ℚ) * a + jitter) * 1000 + 1/2 =
        ((3000 * a : Int) : ℚ) + (1000 * jitter + 1/2) := by
      push_cast
      ring
    rw [this, Int.floor_int_add]
  have h2 : ∀ a : Int, retryDelayMs a false jitter =
      2000 * a + ⌊1000 * jitter + 1/2⌋ := by
    intro a
    unfold retryDelayMs jsRound
    simp only [Bool.false_eq_true, if_false, reduceIte]
    have : ((2 : ℚ) * a + jitter) * 1000 + 1/2 =
        ((2000 * a : Int) : ℚ) + (1000 * jitter + 1/2) := by
      push_cast
      ring
    rw [this, Int.floor_int_add]
  have hk0 : 0 ≤ ⌊1000 * jitter + 1/2⌋ := by
    rw [Int.le_floor]
    push_cast
    linarith
  have hk1 : ⌊1000 * jitter + 1/2⌋ < 1001 := by
    rw [Int.floor_lt]
    push_cast
    linarith
  simp only [h3, h2]
  refine ⟨by ring, by ring, by ring, ⟨by omega, by omega⟩, ⟨by omega, by omega⟩, by omega⟩

/-- Witness for C9 (amended): the concrete delays at attempts 1 and 2
with jitter 1/2. -/
theorem retryDelay_properties_witness :
    retryDelayMs (1 + 1) true (1/2) - retryDelayMs 1 true (1/2) = 3000 ∧
    retryDelayMs 1 true (1/2) - retryDelayMs 1 false (1/2) = 1000 * 1 :=
  ⟨(retryDelay_properties 1 (1/2) le_rfl (by norm_num) (by norm_num)).1,
   (retryDelay_properties 1 (1/2) le_rfl (by norm_num) (by norm_num)).2.2.1⟩

/-- Counterexample for C9 as stated: the delay sequence at zero jitter is
3000, 6000, 9000 — successive differences are constant and the growth
ratio is not, so the delay does not grow exponentially with the attempt
number. -/
theorem retryDelay_not_exponential :
    retryDelayMs 1 true 0 = 3000 ∧ retryDelayMs 2 true 0 = 6000 ∧
    retryDelayMs 3 true 0 = 9000 ∧
    retryDelayMs 2 true 0 * retryDelayMs 2 true 0 ≠
      retryDelayMs 1 true 0 * retryDelayMs 3 true 0 := by
  refine ⟨?_, ?_, ?_, ?_⟩ <;> norm_num [retryDelayMs, jsRound]

theorem escChar_no_specials (x : Char) : ∀ c ∈ (escChar x).toList,
    c ≠ '<' ∧ c ≠ '>' ∧ c ≠ Char.ofNat 34 ∧ c ≠ Char.ofNat 39 := by
  unfold escChar
  split_ifs with h1 h2 h3 h4 h5
  · decide
  · decide
  · decide
  · decide
  · decide
  · intro c hc
    have hx : c = x := by simpa using hc
    subst hx
    exact ⟨h1, h2, h5, h4⟩

theorem escChar_amp (x : Char) (out : List Char) (i : Nat)
    (h : (escChar x).toList[i]? = some '&') :
    ∃ ent ∈ ["&lt;", "&gt;", "&amp;", "&apos;", "&quot;"],
      ent.toList <+: ((escChar x).toList.drop i ++ out) := by
  unfold escChar at h ⊢
  split_ifs at h ⊢ with h1 h2 h3 h4 h5
  · have hlen : i < (("&lt;" : String).toList).length := by
      by_contra hcon
      rw [List.getElem?_eq_none (Nat.le_of_not_lt hcon)] at h
      exact Option.noConfusion h
    have hlt : i < 4 := by
      have he : (("&lt;" : String).toList).length = 4 := rfl
      omega
    interval_cases i
    · exact ⟨"&lt;", by simp, by simpa using List.prefix_append (("&lt;" : String).toList) out⟩
    · exact absurd h (by decide)
    · exact absurd h (by decide)
    · exact absurd h (by decide)
  · have hlen : i < (("&gt;" : String).toList).length := by
      by_contra hcon
      rw [List.getElem?_eq_none (Nat.le_of_not_lt hcon)] at h
      exact Option.noConfusion h
    have hlt : i < 4 := by
      have he : (("&gt;" : String).toList).length = 4 := rfl
      omega
    interval_cases i
    · exact ⟨"&gt;", by simp, by simpa using List.prefix_append (("&gt;" : String).toList) out⟩
    · exact absurd h (by decide)
    · exact absurd h (by decide)
    · exact absurd h (by decide)
  · have hlen : i < (("&amp;" : String).toList).length := by
      by_contra hcon
      rw [List.getElem?_eq_none (Nat.le_of_not_lt hcon)] at h
      exact Option.noConfusion h
    have hlt : i < 5 := by
      have he : (("&amp;" : String).toList).length = 5 := rfl
      omega
    interval_cases i
    · exact ⟨"&amp;", by simp, by simpa using List.prefix_append (("&amp;" : String).toList) out⟩
    · exact absurd h (by decide)
    · exact absurd h (by decide)
    · exact absurd h (by decide)
    · exact absurd h (by decide)
  · have hlen : i < (("&apos;" : String).toList).length := by
      by_contra hcon
      rw [List.getElem?_eq_none (Nat.le_of_not_lt hcon)] at h
      exact Option.noConfusion h
    have hlt : i < 6 := by
      have he : (("&apos;" : String).toList).length = 6 := rfl
      omega
    interval_cases i
    · exact ⟨"&apos;", by simp,
        by simpa using List.prefix_append (("&apos;" : String).toList) out⟩
    · exact absurd h (by decide)
    · exact absurd h (by decide)
    · exact absurd h (by decide)
    · exact absurd h (by decide)
    · exact absurd h (by decide)
  · have hlen : i < (("&quot;" : String).toList).length := by
      by_contra hcon
      rw [List.getElem?_eq_none (Nat.le_of_not_lt hcon)] at h
      exact Option.noConfusion h
    have hlt : i < 6 := by
      have he : (("&quot;" : String).toList).length = 6 := rfl
      omega
    interval_cases i
    · exact ⟨"&quot;", by simp,
        by simpa using List.prefix_append (("&quot;" : String).toList) out⟩
    · exact absurd h (by decide)
    · exact absurd h (by decide)
    · exact absurd h (by decide)
    · exact absurd h (by decide)
    · exact absurd h (by decide)
  · have hlen : i < ((String.singleton x).toList).length := by
      by_contra hcon
      rw [List.getElem?_eq_none (Nat.le_of_not_lt hcon)] at h
      exact Option.noConfusion h
    have hlt : i < 1 := by
      have he : ((String.singleton x).toList).length = 1 := rfl
      omega
    interval_cases i
    exact absurd (by simpa using h) h3

theorem escFlatten_no_specials (l : List Char) :
    ∀ c ∈ (l.map (fun c => (escChar c).toList)).flatten,
      c ≠ '<' ∧ c ≠ '>' ∧ c ≠ Char.ofNat 34 ∧ c ≠ Char.ofNat 39 := by
  induction l with
  | nil => simp
  | cons x xs ih =>
    intro c hc
    rw [List.map_cons, List.flatten_cons] at hc
    rcases List.mem_append.mp hc with h | h
    · exact escChar_no_specials x c h
    · exact ih c h

theorem escFlatten_amp (l : List Char) : ∀ i : Nat,
    ((l.map (fun c => (escChar c).toList)).flatten)[i]? = some '&' →
    ∃ ent ∈ ["&lt;", "&gt;", "&amp;", "&apos;", "&quot;"],
      ent.toList <+: ((l.map (fun c => (escChar c).toList)).flatten.drop i) := by
  induction l with
  | nil => intro i h; simp at h
  | cons x xs ih =>
    intro i h
    rw [List.map_cons, List.flatten_cons] at h ⊢
    rcases Nat.lt_or_ge i ((escChar x).toList).length with hi | hi
    · rw [List.getElem?_append_left hi] at h
      obtain ⟨ent, hm, hp⟩ :=
        escChar_amp x ((xs.map (fun c => (escChar c).toList)).flatten) i h
      exact ⟨ent, hm, by rw [List.drop_append_of_le_length (Nat.le_of_lt hi)]; exact hp⟩
    · obtain ⟨j, rfl⟩ : ∃ j, i = ((escChar x).toList).length + j :=
        ⟨i - ((escChar x).toList).length, by omega⟩
      rw [List.getElem?_append_right hi, Nat.add_sub_cancel_left] at h
      obtain ⟨ent, hm, hp⟩ := ih j h
      rw [List.drop_append]
      exact ⟨ent, hm, hp⟩

/-- C10: `escapeXml` yields the empty string on `null`/`undefined`, its
output never contains a raw `<`, `>`, `"` or apostrophe, and every `&` in
the output starts one of the five entities `&lt;` `&gt;` `&amp;` `&apos;`
`&quot;` — so escaped user-controlled text cannot alter the XML structure
of the rendered SVG. -/
theorem escapeXml_safe :
    escapeXml none = "" ∧
    ∀ s : String,
      (∀ c ∈ (escapeXml (some s)).toList,
        c ≠ '<' ∧ c ≠ '>' ∧ c ≠ Char.ofNat 34 ∧ c ≠ Char.ofNat 39) ∧
      (∀ i : Nat, (escapeXml (some s)).toList[i]? = some '&' →
        ∃ ent ∈ ["&lt;", "&gt;", "&amp;", "&apos;", "&quot;"],
          ent.toList <+: (escapeXml (some s)).toList.drop i) := by
  have hrep : ∀ s : String, (escapeXml (some s)).toList =
      (s.toList.map (fun c => (escChar c).toList)).flatten := by
    intro s
    show (String.join (s.toList.map escChar)).data = _
    rw [String.join_eq, List.map_map]
    rfl
  refine ⟨rfl, fun s => ⟨?_, ?_⟩⟩
  · rw [hrep]
    exact escFlatten_no_specials s.toList
  · rw [hrep]
    exact escFlatten_amp s.toList

/-- Witness for C10: in `escapeXml "a<b"` the `&` at index 1 starts an
entity. -/
theorem escapeXml_safe_witness :
    (escapeXml (some "a<b")).toList[1]? = some '&' ∧
    ∃ ent ∈ ["&lt;", "&gt;", "&amp;", "&apos;", "&quot;"],
      ent.toList <+: (escapeXml (some "a<b")).toList.drop 1 :=
  ⟨by decide, (escapeXml_safe.2 "a<b").2 1 (by decide)⟩

end LetterboxdGraph
